import Mathlib

/-!
Verification of the date-arithmetic / off-source-interval pipeline of
`extra/vex2zapints.py`.

The script reads a VEX observation schedule, filters its scans down to one
station and one source, walks the filtered scans extracting the off-source
time gaps, and maps every gap onto integer rfifind block indices.

Dates travel through the script as parsed integer fields of VEX date strings
(`2015y262d11h00m00s`); we embed them as the record of those fields.  Python
float arithmetic on these small integers and on the MJD rationals is exact,
so the embedding works over ℤ and ℚ; `int(...)`/`math.trunc` is truncation
toward zero, `math.floor`/`math.ceil` are `rfloor`/`rceil` below.
-/

/-- Parsed form of a VEX date string `YYYYyDDDdHHhMMmSSs`
(e.g. `2015y262d11h00m00s`): the five integer fields that
`dateVEX2split` / `dateVEX2sec` read from fixed positions of the string.
For in-range field values the `%04dy%03dd%02dh%02dm%02ds` formatting used by
`dateSec2VEX` is injective, so record equality is string equality. -/
structure VexDate where
  yr : Int
  doy : Int
  hh : Int
  mm : Int
  ss : Int
deriving DecidableEq, Repr

/-- Python `str.upper()`, as used on the ASCII station codes and the
telescope argument (`telescope = args[2].upper()`, `st[0].upper()`). -/
def upperAscii (s : String) : String := ⟨s.data.map Char.toUpper⟩

/-- `math.floor` on an (exact) rational. -/
def rfloor (q : ℚ) : Int := Rat.floor q

/-- `math.ceil` on an (exact) rational. -/
def rceil (q : ℚ) : Int := -Rat.floor (-q)

/-- `math.trunc` / `int(...)`: truncation toward zero. -/
def rtrunc (q : ℚ) : Int := if q < 0 then rceil q else rfloor q

/-- `dateVEX2sec`: a VEX date as seconds-of-year,
`ss + 60.0*mm + 3600.0*hh + 86400.0*doy` (exact on these integers). -/
def dateVEX2sec (v : VexDate) : Int :=
  v.ss + 60 * v.mm + 3600 * v.hh + 86400 * v.doy

/-- `dateSec2VEX`: seconds-of-year back to a VEX date.  Each step is
`int(x/d)` on an exact quotient, i.e. `Int.tdiv`.  The source performs no
input validation: every `(sec, year)` input is formatted into a result. -/
def dateSec2VEX (sec : Int) (year : Int) : VexDate :=
  let doy := Int.tdiv sec 86400
  let r1 := sec - doy * 86400
  let hh := Int.tdiv r1 3600
  let r2 := r1 - hh * 3600
  let mm := Int.tdiv r2 60
  let ss := r2 - mm * 60
  ⟨year, doy, hh, mm, ss⟩

/-- `dateVEXaddsec`: add seconds to a VEX date (same year field; no year
rollover, per the script's single-session domain). -/
def dateVEXaddsec (v : VexDate) (sec : Int) : VexDate :=
  dateSec2VEX (dateVEX2sec v + sec) v.yr

/-- Python `datetime`'s proleptic-Gregorian leap-year rule (Python `%` on a
positive modulus agrees with `Int.emod`). -/
def isLeapYear (y : Int) : Bool :=
  y % 4 == 0 && (y % 100 != 0 || y % 400 == 0)

/-- Length of year `y` in the proleptic Gregorian calendar. -/
def daysInYear (y : Int) : Int := if isLeapYear y then 366 else 365

/-- Month lengths of year `y` in the proleptic Gregorian calendar. -/
def monthLengths (y : Int) : List Int :=
  [31, if isLeapYear y then 29 else 28, 31, 30, 31, 30, 31, 31, 30, 31, 30, 31]

/-- Walk a month-length table: month number (counting from `m`) and
day-of-month for a 1-based day offset `d` into the table. -/
def pickMonth : List Int → Int → Int → Int × Int
  | [], m, d => (m, d)
  | l :: ls, m, d => if d ≤ l then (m, d) else pickMonth ls (m + 1) (d - l)

/-- Year rollover of `datetime.date.fromordinal`: a day count beyond the end
of year `y` rolls into following years.  Structural recursion on a fuel
argument; each step removes at least 365 days, so `d` itself is enough fuel. -/
def normDoy : Nat → Int → Nat → Int × Nat
  | 0, y, d => (y, d)
  | fuel + 1, y, d =>
    if (daysInYear y).toNat < d then normDoy fuel (y + 1) (d - (daysInYear y).toNat)
    else (y, d)

/-- `(dt.year, dt.month, dt.day)` of
`datetime.date.fromordinal(date(y,1,1).toordinal() + doy - 1)`, for
`doy ≥ 1` (outside Python's ordinal range `datetime` raises; the pipeline
and the claims only touch the in-range domain). -/
def fromDoy (y : Int) (doy : Int) : Int × Int × Int :=
  let p := normDoy doy.toNat y doy.toNat
  let q := pickMonth (monthLengths p.1) 1 (p.2 : Int)
  (p.1, q.1, q.2)

/-- `date_to_jd` from the source: Julian Day of a calendar date
(Duffet-Smith & Zwart), with the 1582-10-15 Gregorian cutover. -/
def date_to_jd (year month day : Int) : ℚ :=
  let yearp : Int := if month = 1 ∨ month = 2 then year - 1 else year
  let monthp : Int := if month = 1 ∨ month = 2 then month + 12 else month
  let B : Int :=
    if year < 1582 ∨ (year = 1582 ∧ month < 10) ∨
        (year = 1582 ∧ month = 10 ∧ day < 15) then 0
    else
      let A := rtrunc ((yearp : ℚ) / 100)
      2 - A + rtrunc ((A : ℚ) / 4)
  let C : Int :=
    if yearp < 0 then rtrunc ((365.25 : ℚ) * (yearp : ℚ) - 0.75)
    else rtrunc ((365.25 : ℚ) * (yearp : ℚ))
  let D : Int := rtrunc ((30.6001 : ℚ) * ((monthp : ℚ) + 1))
  (B : ℚ) + (C : ℚ) + (D : ℚ) + (day : ℚ) + 1720994.5

/-- Result record of `dateVEX2split`: the five parsed fields, the derived
month / day-of-month, and the MJD. -/
structure SplitDate where
  yr : Int
  doy : Int
  hh : Int
  mm : Int
  ss : Int
  mon : Int
  mday : Int
  mjd : ℚ
deriving DecidableEq, Repr

/-- `dateVEX2split`: split a VEX date and compute its MJD.  Month and
day-of-month come from `datetime.date.fromordinal` (`fromDoy`); the Julian
Day is taken at the rolled-over `(dt.year, dt.month, dt.day)`. -/
def dateVEX2split (v : VexDate) : SplitDate :=
  let t := fromDoy v.yr v.doy
  let jdfract : ℚ := ((v.hh : ℚ) - 12 + (v.mm : ℚ) / 60 + (v.ss : ℚ) / 3600) / 24
  { yr := v.yr, doy := v.doy, hh := v.hh, mm := v.mm, ss := v.ss,
    mon := t.2.1, mday := t.2.2,
    mjd := date_to_jd t.1 t.2.1 t.2.2 + 0.5 - 2400000.5 + jdfract }

/-- One `$SCHED` scan as the pipeline reads it: source name, start date, and
the scan's station lines as (station id, data-good duration in seconds, the
first whitespace token of `st[2]` parsed as an integer). -/
structure Scan where
  source : String
  start : VexDate
  stations : List (String × Int)
deriving DecidableEq, Repr

instance : Inhabited Scan := ⟨⟨"", ⟨0, 0, 0, 0, 0⟩, []⟩⟩

/-- `doFlag`.  Mirrors the source including its parameter list: the body
reads the module-level globals `fb_Tstart` / `fb_Tint` (passed here
explicitly as the two reference arguments after the unused parameters), not
the parameters `fb_tstart` / `fb_tint`.  The `'%d:%d'` string appended to
`zapints_list` is modelled as the pair of its two integers (that formatting
is injective). -/
def doFlag (vex_tstart vex_tstop : VexDate) (fb_tstart fb_tint : ℚ)
    (fb_Tstart fb_Tint : ℚ) (zapints_list : List (Int × Int)) :
    List (Int × Int) :=
  let t1 := dateVEX2split vex_tstart
  let t2 := dateVEX2split vex_tstop
  let flag_startint := max 0 (rfloor ((t1.mjd - fb_Tstart) / fb_Tint))
  let flag_stopint := max 0 (rceil ((t2.mjd - fb_Tstart) / fb_Tint))
  if flag_startint = flag_stopint then zapints_list
  else zapints_list ++ [(flag_startint, flag_stopint)]

/-- Station filter: keep the scans whose station list contains the
upper-cased telescope name.  The source deletes the non-matching scans from
the schedule dict in place, iterating over a pre-computed key list; on
distinct scan names that is order-preserving filtering. -/
def stationFilter (telescope : String) (scans : List Scan) : List Scan :=
  scans.filter (fun sc => sc.stations.any (fun st => upperAscii st.1 == telescope))

/-- Source filter: scans with `scan['source'] != source` are deleted
in place. -/
def sourceFilter (src : String) (scans : List Scan) : List Scan :=
  scans.filter (fun sc => sc.source == src)

/-- Body of the zap loop for one (source-filtered) scan: for each station
line matching the telescope, flag `[zap_tstart, scan.start]` and restart the
zap cursor at the end of the on-source scan (its start plus its data-good
duration). -/
def zapScan (telescope : String) (fbT fbI : ℚ)
    (z : VexDate × List (Int × Int)) (sc : Scan) :
    VexDate × List (Int × Int) :=
  sc.stations.foldl
    (fun acc st =>
      if upperAscii st.1 == telescope then
        (dateVEXaddsec sc.start st.2, doFlag acc.1 sc.start fbT fbI fbT fbI acc.2)
      else acc)
    z

/-- Exit status of the script: `sys.exit(0)` after a "nothing to do"
message, or the accumulated zapints list. -/
inductive Outcome where
  | nothingToDo : Outcome
  | flags : List (Int × Int) → Outcome
deriving DecidableEq, Repr

/-- The script's main flow after the VEX file is parsed: the initial
scan-count check (`Nscans <= 1`), the station filter with its `<= 1` check,
capture of the first/last station-filtered scan, the source filter with its
`< 1` check, the zap loop started at the first station-filtered scan's
start, and the final flag up to `exper_nominal_stop` when the cursor has not
reached the last station-filtered scan's start. -/
def pipeline (telescope src : String) (scans : List Scan)
    (nominalStop : VexDate) (fb_Tstart fb_Tint : ℚ) : Outcome :=
  if scans.length ≤ 1 then Outcome.nothingToDo
  else
    let scans1 := stationFilter telescope scans
    if scans1.length ≤ 1 then Outcome.nothingToDo
    else
      let scan_1 := scans1.headI
      let scan_N := scans1.getLastI
      let scans2 := sourceFilter src scans1
      if scans2.length < 1 then Outcome.nothingToDo
      else
        let r := scans2.foldl (zapScan telescope fb_Tstart fb_Tint) (scan_1.start, [])
        Outcome.flags
          (if scan_N.start ≠ r.1 then
            doFlag r.1 nominalStop fb_Tstart fb_Tint fb_Tstart fb_Tint r.2
          else r.2)

/-- The contents of the caller's `scans` collection when the script is done
(including the early exits): both filter stages delete entries from the
schedule dict in place, so the schedule object itself ends up destructively
filtered. -/
def finalSchedule (telescope src : String) (scans : List Scan) : List Scan :=
  if scans.length ≤ 1 then scans
  else
    let scans1 := stationFilter telescope scans
    if scans1.length ≤ 1 then scans1
    else sourceFilter src scans1

/-! ## Helper lemmas -/

lemma rfloor_eq_floor (q : ℚ) : rfloor q = ⌊q⌋ := by
  rw [rfloor, Rat.floor_def', ← Rat.floor_def]

lemma rceil_eq_ceil (q : ℚ) : rceil q = ⌈q⌉ := by
  rw [rceil, Rat.floor_def', ← Rat.floor_def, Int.floor_neg]; ring

lemma dateSec2VEX_eq_of_nonneg (sec year : Int) (h : 0 ≤ sec) :
    dateSec2VEX sec year =
      ⟨year, sec / 86400, sec % 86400 / 3600, sec % 86400 % 3600 / 60,
        sec % 86400 % 3600 % 60⟩ := by
  have e1 : Int.tdiv sec 86400 = sec / 86400 := Int.tdiv_eq_ediv h (by norm_num)
  have h1 : sec - sec / 86400 * 86400 = sec % 86400 := by omega
  have hr1 : (0 : Int) ≤ sec % 86400 := by omega
  have e2 : Int.tdiv (sec % 86400) 3600 = sec % 86400 / 3600 :=
    Int.tdiv_eq_ediv hr1 (by norm_num)
  have h2 : sec % 86400 - sec % 86400 / 3600 * 3600 = sec % 86400 % 3600 := by omega
  have hr2 : (0 : Int) ≤ sec % 86400 % 3600 := by omega
  have e3 : Int.tdiv (sec % 86400 % 3600) 60 = sec % 86400 % 3600 / 60 :=
    Int.tdiv_eq_ediv hr2 (by norm_num)
  have h3 : sec % 86400 % 3600 - sec % 86400 % 3600 / 60 * 60 =
      sec % 86400 % 3600 % 60 := by omega
  simp only [dateSec2VEX]
  rw [e1, h1, e2, h2, e3, h3]

/-! ## C10: doFlag ignores its fb_tstart / fb_tint parameters -/

/-- C10: the block range emitted by `doFlag` is independent of the values of
its `fb_tstart` and `fb_tint` parameters: the body reads the module-level
`fb_Tstart` / `fb_Tint` globals instead, so for any two argument pairs the
drop decision and the appended range are identical. -/
theorem doFlag_ignores_fb_args (t1 t2 : VexDate) (a b a2 b2 : ℚ)
    (gT gI : ℚ) (l : List (Int × Int)) :
    doFlag t1 t2 a b gT gI l = doFlag t1 t2 a2 b2 gT gI l := rfl

/-! ## C2: dateSec2VEX never fails -/

/-- C2 counterexample: `dateSec2VEX` performs no input validation.  At
seconds = -1 (negative) with year 2015 it does not fail with any error: it
returns an (out-of-range) date record, contradicting the claimed
`InvalidInput` failure. -/
theorem dateSec2VEX_negative_no_error :
    dateSec2VEX (-1) 2015 = ⟨2015, 0, 0, 0, -1⟩ := by decide

/-- C2 amended: `dateSec2VEX` is total: it never signals an error for any
(seconds, year) input, copying the year verbatim; for non-negative seconds
it decomposes the seconds by truncating integer division by 86400, then
3600, then 60, yielding in-range hour/minute/second fields that reconstruct
the input exactly. -/
theorem dateSec2VEX_decomposition (sec year : Int) (h : 0 ≤ sec) :
    (dateSec2VEX sec year).yr = year ∧
    86400 * (dateSec2VEX sec year).doy + 3600 * (dateSec2VEX sec year).hh +
      60 * (dateSec2VEX sec year).mm + (dateSec2VEX sec year).ss = sec ∧
    0 ≤ (dateSec2VEX sec year).doy ∧
    0 ≤ (dateSec2VEX sec year).hh ∧ (dateSec2VEX sec year).hh ≤ 23 ∧
    0 ≤ (dateSec2VEX sec year).mm ∧ (dateSec2VEX sec year).mm ≤ 59 ∧
    0 ≤ (dateSec2VEX sec year).ss ∧ (dateSec2VEX sec year).ss ≤ 59 := by
  rw [dateSec2VEX_eq_of_nonneg sec year h]
  dsimp only
  refine ⟨rfl, ?_, ?_, ?_, ?_, ?_, ?_, ?_, ?_⟩ <;> omega

/-- C2 amended, witness at seconds = 86399, year = 2015. -/
theorem dateSec2VEX_decomposition_witness :
    (0 : Int) ≤ 86399 ∧
    ((dateSec2VEX 86399 2015).yr = 2015 ∧
    86400 * (dateSec2VEX 86399 2015).doy + 3600 * (dateSec2VEX 86399 2015).hh +
      60 * (dateSec2VEX 86399 2015).mm + (dateSec2VEX 86399 2015).ss = 86399 ∧
    0 ≤ (dateSec2VEX 86399 2015).doy ∧
    0 ≤ (dateSec2VEX 86399 2015).hh ∧ (dateSec2VEX 86399 2015).hh ≤ 23 ∧
    0 ≤ (dateSec2VEX 86399 2015).mm ∧ (dateSec2VEX 86399 2015).mm ≤ 59 ∧
    0 ≤ (dateSec2VEX 86399 2015).ss ∧ (dateSec2VEX 86399 2015).ss ≤ 59) :=
  ⟨by decide, dateSec2VEX_decomposition 86399 2015 (by decide)⟩

/-! ## C7: round-trip seconds-of-year -/

/-- C7: for a VEX date with day-of-year ≥ 1, hour in 0..23, minute in 0..59,
second in 0..59, converting with `dateVEX2sec` and back with `dateSec2VEX`
at the same year reconstructs the same record (day-of-year, hour, minute,
second and year). -/
theorem dateVEX_roundtrip (v : VexDate) (h1 : 1 ≤ v.doy)
    (h2 : 0 ≤ v.hh) (h3 : v.hh ≤ 23) (h4 : 0 ≤ v.mm) (h5 : v.mm ≤ 59)
    (h6 : 0 ≤ v.ss) (h7 : v.ss ≤ 59) :
    dateSec2VEX (dateVEX2sec v) v.yr = v := by
  obtain ⟨yr, doy, hh, mm, ss⟩ := v
  simp only at h1 h2 h3 h4 h5 h6 h7
  have h : 0 ≤ dateVEX2sec ⟨yr, doy, hh, mm, ss⟩ := by
    simp only [dateVEX2sec]; omega
  rw [dateSec2VEX_eq_of_nonneg _ _ h]
  simp only [dateVEX2sec, VexDate.mk.injEq]
  refine ⟨trivial, ?_, ?_, ?_, ?_⟩ <;> omega

/-- C7 witness at `2015y262d11h56m15s`. -/
theorem dateVEX_roundtrip_witness :
    dateSec2VEX (dateVEX2sec ⟨2015, 262, 11, 56, 15⟩) 2015 =
      ⟨2015, 262, 11, 56, 15⟩ :=
  dateVEX_roundtrip ⟨2015, 262, 11, 56, 15⟩ (by decide) (by decide) (by decide)
    (by decide) (by decide) (by decide) (by decide)

/-! ## Concrete schedule of spec section 8 -/

/-- Section-8 example, first scan: source X at `2015y262d11h00m00s`,
stationA dwell 300 s. -/
def exScan1 : Scan := ⟨"X", ⟨2015, 262, 11, 0, 0⟩, [("stationA", 300)]⟩

/-- Section-8 example, second scan: source Y at `2015y262d11h10m00s`. -/
def exScan2 : Scan := ⟨"Y", ⟨2015, 262, 11, 10, 0⟩, [("stationA", 300)]⟩

/-- Section-8 example, third scan: source X at `2015y262d11h20m00s`. -/
def exScan3 : Scan := ⟨"X", ⟨2015, 262, 11, 20, 0⟩, [("stationA", 300)]⟩

/-- Section-8 example: nominal session stop `2015y262d11h30m00s`. -/
def exStop : VexDate := ⟨2015, 262, 11, 30, 0⟩

/-- A scan observed by a different station (stationB), for the filter
counterexamples. -/
def exScanB : Scan := ⟨"X", ⟨2015, 262, 11, 10, 0⟩, [("stationB", 300)]⟩

/-! ## C9: the schedule is destructively filtered, not read-only -/

/-- C9 counterexample: the schedule collection is mutated.  Running the
pipeline on the section-8 schedule leaves the caller's `scans` dict holding
only the station- and source-filtered subset `[exScan1, exScan3]`, not the
three entries it was constructed with. -/
theorem schedule_not_readonly :
    finalSchedule "STATIONA" "X" [exScan1, exScan2, exScan3] = [exScan1, exScan3] ∧
    finalSchedule "STATIONA" "X" [exScan1, exScan2, exScan3] ≠
      [exScan1, exScan2, exScan3] := by decide

/-- C9 amended: no stage modifies an individual schedule entry and the
surviving entries keep their original relative order — the schedule after
the run is a sublist of the original, every element of which is an unchanged
member of the original — but the collection itself is destructively
filtered in place, so after the run it holds only the filtered subset. -/
theorem finalSchedule_sublist (tel src : String) (scans : List Scan) :
    (finalSchedule tel src scans).Sublist scans ∧
    ∀ sc ∈ finalSchedule tel src scans, sc ∈ scans := by
  have hs : (finalSchedule tel src scans).Sublist scans := by
    simp only [finalSchedule, stationFilter, sourceFilter]
    split_ifs with h1 h2
    · exact List.Sublist.refl _
    · exact List.filter_sublist _
    · exact (List.filter_sublist _).trans (List.filter_sublist _)
  exact ⟨hs, fun sc h => hs.subset h⟩

/-! ## C1: the empty-filter gates -/

/-- C1 counterexample: a station-filtered result with exactly one entry is
*not* processed: the station-stage check is `len(scans) <= 1`, so the run
stops with "nothing to do" although the filtered schedule is non-empty (and
its single scan is on-source). -/
theorem station_singleton_stops :
    (stationFilter "STATIONA" [exScan1, exScanB]).length = 1 ∧
    (sourceFilter "X" (stationFilter "STATIONA" [exScan1, exScanB])).length = 1 ∧
    pipeline "STATIONA" "X" [exScan1, exScanB] exStop 0 1 =
      Outcome.nothingToDo := by decide

/-- C1 amended: gap extraction is reached if and only if the raw schedule
has at least two scans, the station-filtered schedule has at least two
entries, and the source-filtered schedule has at least one entry.  A
source-filtered result with exactly one entry is processed, but at the
station stage (and at the initial scan count) a single entry already stops
the run with the non-error "nothing to do" outcome. -/
theorem pipeline_proceeds_iff (tel src : String) (scans : List Scan)
    (stop : VexDate) (T I : ℚ) :
    (∃ l, pipeline tel src scans stop T I = Outcome.flags l) ↔
      (1 < scans.length ∧ 1 < (stationFilter tel scans).length ∧
        1 ≤ (sourceFilter src (stationFilter tel scans)).length) := by
  simp only [pipeline]
  split_ifs with h1 h2 h3 <;>
    simp only [reduceCtorEq, exists_false, false_iff, not_and, not_lt,
      Outcome.flags.injEq, exists_eq', true_iff] <;>
    omega

/-! ## C4: doFlag block mapping -/

/-- C4: for every gap and positive block duration, `doFlag` computes
`startint = max(0, floor((mjd(start) - fb_Tstart)/fb_Tint))` and
`stopint = max(0, ceil((mjd(stop) - fb_Tstart)/fb_Tint))`; it appends
nothing (silently) iff the two are equal, and otherwise appends exactly the
range (startint, stopint) to the list. -/
theorem doFlag_block_range (t1 t2 : VexDate) (a b T I : ℚ)
    (l : List (Int × Int)) (hI : 0 < I) :
    (doFlag t1 t2 a b T I l = l ↔
      max 0 (rfloor (((dateVEX2split t1).mjd - T) / I)) =
        max 0 (rceil (((dateVEX2split t2).mjd - T) / I))) ∧
    (max 0 (rfloor (((dateVEX2split t1).mjd - T) / I)) ≠
        max 0 (rceil (((dateVEX2split t2).mjd - T) / I)) →
      doFlag t1 t2 a b T I l =
        l ++ [(max 0 (rfloor (((dateVEX2split t1).mjd - T) / I)),
               max 0 (rceil (((dateVEX2split t2).mjd - T) / I)))]) := by
  simp only [doFlag]
  split_ifs with h
  · exact ⟨iff_of_true rfl h, fun hne => absurd h hne⟩
  · refine ⟨iff_of_false (fun he => ?_) h, fun _ => rfl⟩
    have hl := congrArg List.length he
    simp at hl

/-- C4 witness at a concrete gap and block duration 1. -/
theorem doFlag_block_range_witness :
    (0 : ℚ) < 1 ∧
    ((doFlag ⟨2015, 1, 12, 0, 0⟩ ⟨2015, 2, 12, 0, 0⟩ 0 0 0 1 [] = [] ↔
      max 0 (rfloor (((dateVEX2split ⟨2015, 1, 12, 0, 0⟩).mjd - 0) / 1)) =
        max 0 (rceil (((dateVEX2split ⟨2015, 2, 12, 0, 0⟩).mjd - 0) / 1))) ∧
    (max 0 (rfloor (((dateVEX2split ⟨2015, 1, 12, 0, 0⟩).mjd - 0) / 1)) ≠
        max 0 (rceil (((dateVEX2split ⟨2015, 2, 12, 0, 0⟩).mjd - 0) / 1)) →
      doFlag ⟨2015, 1, 12, 0, 0⟩ ⟨2015, 2, 12, 0, 0⟩ 0 0 0 1 [] =
        [] ++ [(max 0 (rfloor (((dateVEX2split ⟨2015, 1, 12, 0, 0⟩).mjd - 0) / 1)),
                max 0 (rceil (((dateVEX2split ⟨2015, 2, 12, 0, 0⟩).mjd - 0) / 1)))])) :=
  ⟨by norm_num,
    doFlag_block_range ⟨2015, 1, 12, 0, 0⟩ ⟨2015, 2, 12, 0, 0⟩ 0 0 0 1 [] (by norm_num)⟩

/-! ## C3: the zap loop as the spec's cursor walk -/

/-- Station lines of a scan that match the telescope. -/
def matchingStations (telescope : String) (sc : Scan) : List (String × Int) :=
  sc.stations.filter (fun st => upperAscii st.1 == telescope)

/-- The candidate-gap walk described by the spec: starting from cursor `z`,
emit one gap `(z, start)` per (start, dwell) pair and advance the cursor to
start + dwell. -/
def candGaps : VexDate → List (VexDate × Int) → List (VexDate × VexDate)
  | _, [] => []
  | z, (s, d) :: rest => (z, s) :: candGaps (dateVEXaddsec s d) rest

/-- Final cursor of the candidate-gap walk. -/
def finalCursor : VexDate → List (VexDate × Int) → VexDate
  | z, [] => z
  | _, (s, d) :: rest => finalCursor (dateVEXaddsec s d) rest

lemma zapFold_no_match (telescope : String) (fbT fbI : ℚ) (s : VexDate)
    (l : List (String × Int))
    (h : l.filter (fun st => upperAscii st.1 == telescope) = [])
    (z : VexDate × List (Int × Int)) :
    l.foldl
      (fun acc st =>
        if upperAscii st.1 == telescope then
          (dateVEXaddsec s st.2, doFlag acc.1 s fbT fbI fbT fbI acc.2)
        else acc) z = z := by
  induction l generalizing z with
  | nil => rfl
  | cons st ls ih =>
    rw [List.filter_cons] at h
    by_cases hp : (upperAscii st.1 == telescope) = true
    · rw [hp] at h; simp at h
    · rw [List.foldl_cons, if_neg hp]
      rw [if_neg hp] at h
      exact ih h z

lemma zapScan_single (telescope : String) (fbT fbI : ℚ)
    (z : VexDate × List (Int × Int)) (sc : Scan) (n : String) (d : Int)
    (h : matchingStations telescope sc = [(n, d)]) :
    zapScan telescope fbT fbI z sc =
      (dateVEXaddsec sc.start d, doFlag z.1 sc.start fbT fbI fbT fbI z.2) := by
  unfold zapScan
  unfold matchingStations at h
  revert h
  generalize sc.stations = l
  intro h
  induction l generalizing z with
  | nil => simp at h
  | cons st ls ih =>
    rw [List.filter_cons] at h
    by_cases hp : (upperAscii st.1 == telescope) = true
    · rw [if_pos hp] at h
      have hst : st = (n, d) := ((List.cons.injEq _ _ _ _).mp h).1
      have hrest : List.filter (fun st => upperAscii st.1 == telescope) ls = [] :=
        ((List.cons.injEq _ _ _ _).mp h).2
      rw [List.foldl_cons, if_pos hp, hst]
      exact zapFold_no_match telescope fbT fbI sc.start ls hrest _
    · rw [if_neg hp] at h
      rw [List.foldl_cons, if_neg hp]
      exact ih z h

lemma zapLoop_eq_candGaps (telescope : String) (fbT fbI : ℚ) (dw : Scan → Int)
    (scans2 : List Scan)
    (hdw : ∀ sc ∈ scans2, ∃ n, matchingStations telescope sc = [(n, dw sc)])
    (z0 : VexDate) (acc0 : List (Int × Int)) :
    scans2.foldl (zapScan telescope fbT fbI) (z0, acc0) =
      (finalCursor z0 (scans2.map fun sc => (sc.start, dw sc)),
        (candGaps z0 (scans2.map fun sc => (sc.start, dw sc))).foldl
          (fun a g => doFlag g.1 g.2 fbT fbI fbT fbI a) acc0) := by
  induction scans2 generalizing z0 acc0 with
  | nil => rfl
  | cons sc rest ih =>
    obtain ⟨n, hn⟩ := hdw sc (List.mem_cons_self sc rest)
    rw [List.foldl_cons, zapScan_single telescope fbT fbI (z0, acc0) sc n (dw sc) hn]
    rw [List.map_cons]
    rw [ih (fun x hx => hdw x (List.mem_cons_of_mem sc hx))]
    rfl

/-- C3: provided gap extraction is reached and each source-filtered scan
lists the target station exactly once (with dwell `dw sc`), the zap loop is
exactly the spec's cursor walk: the cursor starts at the start timestamp of
the first *station-filtered* scan; each source-filtered scan in order
contributes the candidate gap (cursor, scan.start) — handed to doFlag — and
advances the cursor to scan.start plus the station's dwell seconds; after
the loop one final gap (cursor, nominal stop) is flagged iff the cursor
differs from the start timestamp of the last station-filtered scan. -/
theorem gap_extractor_walk (tel src : String) (scans : List Scan)
    (stop : VexDate) (T I : ℚ) (dw : Scan → Int)
    (h1 : 1 < scans.length)
    (h2 : 1 < (stationFilter tel scans).length)
    (h3 : 1 ≤ (sourceFilter src (stationFilter tel scans)).length)
    (hdw : ∀ sc ∈ sourceFilter src (stationFilter tel scans),
      ∃ n, matchingStations tel sc = [(n, dw sc)]) :
    pipeline tel src scans stop T I =
      Outcome.flags
        (let pairs := (sourceFilter src (stationFilter tel scans)).map
            fun sc => (sc.start, dw sc)
        let z0 := (stationFilter tel scans).headI.start
        let zend := finalCursor z0 pairs
        let base := (candGaps z0 pairs).foldl
            (fun a g => doFlag g.1 g.2 T I T I a) []
        if (stationFilter tel scans).getLastI.start ≠ zend then
          doFlag zend stop T I T I base
        else base) := by
  simp only [pipeline]
  rw [if_neg (by omega), if_neg (by omega), if_neg (by omega)]
  rw [zapLoop_eq_candGaps tel T I dw _ hdw _ _]

/-- C3 witness at the section-8 schedule (dwell 300 s everywhere). -/
theorem gap_extractor_walk_witness :
    pipeline "STATIONA" "X" [exScan1, exScan2, exScan3] exStop 0 1 =
      Outcome.flags
        (let pairs := (sourceFilter "X"
            (stationFilter "STATIONA" [exScan1, exScan2, exScan3])).map
            fun sc => (sc.start, (fun _ => (300 : Int)) sc)
        let z0 := (stationFilter "STATIONA" [exScan1, exScan2, exScan3]).headI.start
        let zend := finalCursor z0 pairs
        let base := (candGaps z0 pairs).foldl
            (fun a g => doFlag g.1 g.2 0 1 0 1 a) []
        if (stationFilter "STATIONA" [exScan1, exScan2, exScan3]).getLastI.start ≠ zend then
          doFlag zend exStop 0 1 0 1 base
        else base) :=
  gap_extractor_walk "STATIONA" "X" [exScan1, exScan2, exScan3] exStop 0 1
    (fun _ => (300 : Int)) (by decide) (by decide) (by decide)
    (fun sc hsc => by
      have he : sourceFilter "X" (stationFilter "STATIONA" [exScan1, exScan2, exScan3]) =
          [exScan1, exScan3] := by decide
      rw [he] at hsc
      have hc : sc = exScan1 ∨ sc = exScan3 := by simpa using hsc
      rcases hc with rfl | rfl
      · exact ⟨"stationA", by decide⟩
      · exact ⟨"stationA", by decide⟩)

/-! ## C6: the Gregorian cutover in date_to_jd -/

lemma rtrunc_eval (q : ℚ) (n : Int) (h0 : 0 ≤ q) (h1 : (n : ℚ) ≤ q)
    (h2 : q < n + 1) : rtrunc q = n := by
  rw [rtrunc, if_neg (not_lt.mpr h0), rfloor_eq_floor]
  exact Int.floor_eq_iff.mpr ⟨h1, h2⟩

/-- Following the spec's wording: the century-based Gregorian correction
term `B = 2 − trunc(yearp/100) + trunc(trunc(yearp/100)/4)`. -/
def gregCorrection (yearp : Int) : Int :=
  2 - rtrunc ((yearp : ℚ) / 100) +
    rtrunc ((rtrunc ((yearp : ℚ) / 100) : ℚ) / 4)

/-- Following the spec's wording: the Julian Day formula with the Gregorian
correction term set to zero (the pre-cutover form). -/
def jdJulianPart (year month day : Int) : ℚ :=
  let yearp : Int := if month = 1 ∨ month = 2 then year - 1 else year
  let monthp : Int := if month = 1 ∨ month = 2 then month + 12 else month
  let C : Int :=
    if yearp < 0 then rtrunc ((365.25 : ℚ) * (yearp : ℚ) - 0.75)
    else rtrunc ((365.25 : ℚ) * (yearp : ℚ))
  let D : Int := rtrunc ((30.6001 : ℚ) * ((monthp : ℚ) + 1))
  (C : ℚ) + (D : ℚ) + (day : ℚ) + 1720994.5

/-- C6: `date_to_jd` implements the 1582-10-15 cutover: before the cutover
the correction term is 0, on/after it the correction is
`2 − trunc(yearp/100) + trunc(trunc(yearp/100)/4)`; and
`date_to_jd 1582 10 15` exceeds `date_to_jd 1582 10 4` by exactly 1. -/
theorem date_to_jd_cutover :
    (∀ y m d : Int, date_to_jd y m d =
      jdJulianPart y m d +
        (if y < 1582 ∨ (y = 1582 ∧ m < 10) ∨ (y = 1582 ∧ m = 10 ∧ d < 15)
          then 0
          else (gregCorrection (if m = 1 ∨ m = 2 then y - 1 else y) : ℚ))) ∧
    date_to_jd 1582 10 15 - date_to_jd 1582 10 4 = 1 := by
  constructor
  · intro y m d
    simp only [date_to_jd, jdJulianPart, gregCorrection]
    split_ifs <;> push_cast <;> ring
  · have hA : rtrunc ((791 : ℚ) / 50) = 15 :=
      rtrunc_eval _ 15 (by norm_num) (by norm_num) (by norm_num)
    have hA4 : rtrunc ((15 : ℚ) / 4) = 3 :=
      rtrunc_eval _ 3 (by norm_num) (by norm_num) (by norm_num)
    have hC : rtrunc ((1155651 : ℚ) / 2) = 577825 :=
      rtrunc_eval _ 577825 (by norm_num) (by norm_num) (by norm_num)
    have hD : rtrunc ((3366011 : ℚ) / 10000) = 336 :=
      rtrunc_eval _ 336 (by norm_num) (by norm_num) (by norm_num)
    simp only [date_to_jd]
    norm_num [hA, hA4, hC, hD]

/-! ## C5: the section-8 schedule end to end -/

lemma rfloor_eval (q : ℚ) (n : Int) (h1 : (n : ℚ) ≤ q) (h2 : q < n + 1) :
    rfloor q = n := by
  rw [rfloor_eq_floor]; exact Int.floor_eq_iff.mpr ⟨h1, h2⟩

lemma rceil_eval (q : ℚ) (n : Int) (h1 : (n : ℚ) - 1 < q) (h2 : q ≤ n) :
    rceil q = n := by
  rw [rceil_eq_ceil]; exact Int.ceil_eq_iff.mpr ⟨h1, h2⟩

lemma jd_2015_sep19 : date_to_jd 2015 9 19 = 2457284.5 := by
  have hA : rtrunc ((403 : ℚ) / 20) = 20 :=
    rtrunc_eval _ 20 (by norm_num) (by norm_num) (by norm_num)
  have hA4 : rtrunc (5 : ℚ) = 5 :=
    rtrunc_eval _ 5 (by norm_num) (by norm_num) (by norm_num)
  have hC : rtrunc ((2943915 : ℚ) / 4) = 735978 :=
    rtrunc_eval _ 735978 (by norm_num) (by norm_num) (by norm_num)
  have hD : rtrunc ((306001 : ℚ) / 1000) = 306 :=
    rtrunc_eval _ 306 (by norm_num) (by norm_num) (by norm_num)
  simp only [date_to_jd]
  norm_num [hA, hA4, hC, hD]

lemma mjd_doy262 (hh mm ss : Int) :
    (dateVEX2split ⟨2015, 262, hh, mm, ss⟩).mjd =
      57284.5 + (((hh : ℚ) - 12) + (mm : ℚ) / 60 + (ss : ℚ) / 3600) / 24 := by
  have hfd : fromDoy 2015 262 = (2015, 9, 19) := by decide
  simp only [dateVEX2split, hfd]
  rw [jd_2015_sep19]
  norm_num

/-- C5: on the section-8 schedule — X at 11:00, Y at 11:10, X at 11:20 (all
300 s dwell on stationA), nominal stop 11:30, reference start MJD equal to
MJD(2015-262 11:00:00) and block duration 300 s in MJD units — the pipeline
emits exactly the two block ranges (1,4) (the 11:05–11:20 gap) and (5,6)
(the residual 11:25–11:30 gap), and nothing before the first X scan. -/
theorem section8_two_ranges :
    pipeline "STATIONA" "X" [exScan1, exScan2, exScan3] exStop
      ((dateVEX2split ⟨2015, 262, 11, 0, 0⟩).mjd) (300 / 86400) =
      Outcome.flags [(1, 4), (5, 6)] := by
  set T : ℚ := (dateVEX2split ⟨2015, 262, 11, 0, 0⟩).mjd with hT
  set I : ℚ := 300 / 86400 with hI
  have hTv : T = 57284.5 - 1 / 24 := by rw [hT, mjd_doy262]; norm_num
  have hd1 : doFlag ⟨2015, 262, 11, 0, 0⟩ ⟨2015, 262, 11, 0, 0⟩ T I T I [] = [] := by
    simp only [doFlag, mjd_doy262, hTv, hI]
    rw [show ((57284.5 + (((11 : Int) : ℚ) - 12 + ((0 : Int) : ℚ) / 60 +
        ((0 : Int) : ℚ) / 3600) / 24 - (57284.5 - 1 / 24)) / (300 / 86400) : ℚ) = 0
      from by norm_num]
    rw [rfloor_eval 0 0 (by norm_num) (by norm_num),
      rceil_eval 0 0 (by norm_num) (by norm_num)]
    decide
  have hd2 : doFlag ⟨2015, 262, 11, 5, 0⟩ ⟨2015, 262, 11, 20, 0⟩ T I T I [] =
      [(1, 4)] := by
    simp only [doFlag, mjd_doy262, hTv, hI]
    rw [show ((57284.5 + (((11 : Int) : ℚ) - 12 + ((5 : Int) : ℚ) / 60 +
        ((0 : Int) : ℚ) / 3600) / 24 - (57284.5 - 1 / 24)) / (300 / 86400) : ℚ) = 1
      from by norm_num]
    rw [show ((57284.5 + (((11 : Int) : ℚ) - 12 + ((20 : Int) : ℚ) / 60 +
        ((0 : Int) : ℚ) / 3600) / 24 - (57284.5 - 1 / 24)) / (300 / 86400) : ℚ) = 4
      from by norm_num]
    rw [rfloor_eval 1 1 (by norm_num) (by norm_num),
      rceil_eval 4 4 (by norm_num) (by norm_num)]
    rw [if_neg (by decide)]
    decide
  have hd3 : doFlag ⟨2015, 262, 11, 25, 0⟩ exStop T I T I [(1, 4)] =
      [(1, 4), (5, 6)] := by
    simp only [exStop, doFlag, mjd_doy262, hTv, hI]
    rw [show ((57284.5 + (((11 : Int) : ℚ) - 12 + ((25 : Int) : ℚ) / 60 +
        ((0 : Int) : ℚ) / 3600) / 24 - (57284.5 - 1 / 24)) / (300 / 86400) : ℚ) = 5
      from by norm_num]
    rw [show ((57284.5 + (((11 : Int) : ℚ) - 12 + ((30 : Int) : ℚ) / 60 +
        ((0 : Int) : ℚ) / 3600) / 24 - (57284.5 - 1 / 24)) / (300 / 86400) : ℚ) = 6
      from by norm_num]
    rw [rfloor_eval 5 5 (by norm_num) (by norm_num),
      rceil_eval 6 6 (by norm_num) (by norm_num)]
    rw [if_neg (by decide)]
    decide
  simp only [pipeline]
  rw [if_neg (by decide), if_neg (by decide)]
  rw [show stationFilter "STATIONA" [exScan1, exScan2, exScan3] =
      [exScan1, exScan2, exScan3] from by decide]
  rw [if_neg (by decide)]
  rw [show sourceFilter "X" [exScan1, exScan2, exScan3] = [exScan1, exScan3]
    from by decide]
  rw [show ([exScan1, exScan2, exScan3] : List Scan).headI.start =
      (⟨2015, 262, 11, 0, 0⟩ : VexDate) from by decide]
  rw [show ([exScan1, exScan2, exScan3] : List Scan).getLastI.start =
      (⟨2015, 262, 11, 20, 0⟩ : VexDate) from by decide]
  rw [List.foldl_cons,
    zapScan_single "STATIONA" T I (⟨2015, 262, 11, 0, 0⟩, []) exScan1
      "stationA" 300 (by decide)]
  rw [show dateVEXaddsec exScan1.start 300 = (⟨2015, 262, 11, 5, 0⟩ : VexDate)
    from by decide]
  rw [show exScan1.start = (⟨2015, 262, 11, 0, 0⟩ : VexDate) from rfl]
  rw [List.foldl_cons,
    zapScan_single "STATIONA" T I _ exScan3 "stationA" 300 (by decide)]
  rw [show dateVEXaddsec exScan3.start 300 = (⟨2015, 262, 11, 25, 0⟩ : VexDate)
    from by decide]
  rw [show exScan3.start = (⟨2015, 262, 11, 20, 0⟩ : VexDate) from rfl]
  rw [List.foldl_nil, hd1, hd2]
  rw [if_pos (show (⟨2015, 262, 11, 20, 0⟩ : VexDate) ≠ ⟨2015, 262, 11, 25, 0⟩
    from by decide)]
  rw [hd3]

/-! ## C8: monotonicity of the MJD within a year -/

/-- The century-based Gregorian correction, over ℤ
(`2 - yearp/100 + (yearp/100)/4` with truncating division on non-negative
arguments). -/
def gregCorrInt (a : Int) : Int := 2 - a / 100 + a / 100 / 4

lemma rtrunc_div100 (a : Int) (h : 0 ≤ a) : rtrunc ((a : ℚ) / 100) = a / 100 := by
  have h0 : (0 : ℚ) ≤ (a : ℚ) / 100 := by positivity
  rw [rtrunc, if_neg (not_lt.mpr h0), rfloor_eq_floor]
  rw [show (100 : ℚ) = ((100 : ℕ) : ℚ) from by norm_num]
  exact Rat.floor_intCast_div_natCast a 100

lemma rtrunc_div4 (a : Int) (h : 0 ≤ a) : rtrunc ((a : ℚ) / 4) = a / 4 := by
  have h0 : (0 : ℚ) ≤ (a : ℚ) / 4 := by positivity
  rw [rtrunc, if_neg (not_lt.mpr h0), rfloor_eq_floor]
  rw [show (4 : ℚ) = ((4 : ℕ) : ℚ) from by norm_num]
  exact Rat.floor_intCast_div_natCast a 4

lemma rtrunc_36525 (a : Int) (h : 0 ≤ a) :
    rtrunc ((365.25 : ℚ) * (a : ℚ)) = 365 * a + a / 4 := by
  have h0 : (0 : ℚ) ≤ (365.25 : ℚ) * (a : ℚ) := by positivity
  rw [rtrunc, if_neg (not_lt.mpr h0), rfloor_eq_floor]
  rw [show (365.25 : ℚ) * (a : ℚ) = ((1461 * a : Int) : ℚ) / ((4 : ℕ) : ℚ)
    from by push_cast; ring]
  rw [Rat.floor_intCast_div_natCast]
  omega


lemma jd_m1 (y : Int) (hy : 1 ≤ y) (hne : y ≠ 1582) (d : Int) :
    date_to_jd y 1 d =
      (((if y < 1582 then 0 else gregCorrInt (y - 1)) +
        (365 * (y - 1) + (y - 1) / 4) + 428 + d : Int) : ℚ) + 1720994.5 := by
  simp only [date_to_jd, true_or, if_true]
  rw [show ((1 : Int) + 12) = 13 from by norm_num]
  rw [if_neg (by omega : ¬ ((y - 1) : Int) < 0)]
  rw [rtrunc_36525 (y - 1) (by omega)]
  rw [rtrunc_eval ((30.6001 : ℚ) * (((13 : Int) : ℚ) + 1)) 428 (by norm_num)
    (by norm_num) (by norm_num)]
  by_cases hlt : y < 1582
  · rw [if_pos (by omega), if_pos hlt]
    push_cast
    ring
  · rw [if_neg (by omega), if_neg hlt]
    rw [rtrunc_div100 (y - 1) (by omega), rtrunc_div4 ((y - 1) / 100) (by omega)]
    simp only [gregCorrInt]
    push_cast
    ring

lemma jd_m2 (y : Int) (hy : 1 ≤ y) (hne : y ≠ 1582) (d : Int) :
    date_to_jd y 2 d =
      (((if y < 1582 then 0 else gregCorrInt (y - 1)) +
        (365 * (y - 1) + (y - 1) / 4) + 459 + d : Int) : ℚ) + 1720994.5 := by
  simp only [date_to_jd, or_true, if_true]
  rw [show ((2 : Int) + 12) = 14 from by norm_num]
  rw [if_neg (by omega : ¬ ((y - 1) : Int) < 0)]
  rw [rtrunc_36525 (y - 1) (by omega)]
  rw [rtrunc_eval ((30.6001 : ℚ) * (((14 : Int) : ℚ) + 1)) 459 (by norm_num)
    (by norm_num) (by norm_num)]
  by_cases hlt : y < 1582
  · rw [if_pos (by omega), if_pos hlt]
    push_cast
    ring
  · rw [if_neg (by omega), if_neg hlt]
    rw [rtrunc_div100 (y - 1) (by omega), rtrunc_div4 ((y - 1) / 100) (by omega)]
    simp only [gregCorrInt]
    push_cast
    ring

lemma jd_m3 (y : Int) (hy : 1 ≤ y) (hne : y ≠ 1582) (d : Int) :
    date_to_jd y 3 d =
      (((if y < 1582 then 0 else gregCorrInt y) +
        (365 * y + y / 4) + 122 + d : Int) : ℚ) + 1720994.5 := by
  simp only [date_to_jd]
  rw [show (if (3 : Int) = 1 ∨ (3 : Int) = 2 then y - 1 else y) = y
    from by norm_num]
  rw [show (if (3 : Int) = 1 ∨ (3 : Int) = 2 then (3 : Int) + 12 else 3) = 3
    from by norm_num]
  rw [if_neg (by omega : ¬ (y : Int) < 0)]
  rw [rtrunc_36525 y (by omega)]
  rw [rtrunc_eval ((30.6001 : ℚ) * (((3 : Int) : ℚ) + 1)) 122 (by norm_num)
    (by norm_num) (by norm_num)]
  by_cases hlt : y < 1582
  · rw [if_pos (by omega), if_pos hlt]
    push_cast
    ring
  · rw [if_neg (by omega), if_neg hlt]
    rw [rtrunc_div100 y (by omega), rtrunc_div4 (y / 100) (by omega)]
    simp only [gregCorrInt]
    push_cast
    ring

lemma jd_m4 (y : Int) (hy : 1 ≤ y) (hne : y ≠ 1582) (d : Int) :
    date_to_jd y 4 d =
      (((if y < 1582 then 0 else gregCorrInt y) +
        (365 * y + y / 4) + 153 + d : Int) : ℚ) + 1720994.5 := by
  simp only [date_to_jd]
  rw [show (if (4 : Int) = 1 ∨ (4 : Int) = 2 then y - 1 else y) = y
    from by norm_num]
  rw [show (if (4 : Int) = 1 ∨ (4 : Int) = 2 then (4 : Int) + 12 else 4) = 4
    from by norm_num]
  rw [if_neg (by omega : ¬ (y : Int) < 0)]
  rw [rtrunc_36525 y (by omega)]
  rw [rtrunc_eval ((30.6001 : ℚ) * (((4 : Int) : ℚ) + 1)) 153 (by norm_num)
    (by norm_num) (by norm_num)]
  by_cases hlt : y < 1582
  · rw [if_pos (by omega), if_pos hlt]
    push_cast
    ring
  · rw [if_neg (by omega), if_neg hlt]
    rw [rtrunc_div100 y (by omega), rtrunc_div4 (y / 100) (by omega)]
    simp only [gregCorrInt]
    push_cast
    ring

lemma jd_m5 (y : Int) (hy : 1 ≤ y) (hne : y ≠ 1582) (d : Int) :
    date_to_jd y 5 d =
      (((if y < 1582 then 0 else gregCorrInt y) +
        (365 * y + y / 4) + 183 + d : Int) : ℚ) + 1720994.5 := by
  simp only [date_to_jd]
  rw [show (if (5 : Int) = 1 ∨ (5 : Int) = 2 then y - 1 else y) = y
    from by norm_num]
  rw [show (if (5 : Int) = 1 ∨ (5 : Int) = 2 then (5 : Int) + 12 else 5) = 5
    from by norm_num]
  rw [if_neg (by omega : ¬ (y : Int) < 0)]
  rw [rtrunc_36525 y (by omega)]
  rw [rtrunc_eval ((30.6001 : ℚ) * (((5 : Int) : ℚ) + 1)) 183 (by norm_num)
    (by norm_num) (by norm_num)]
  by_cases hlt : y < 1582
  · rw [if_pos (by omega), if_pos hlt]
    push_cast
    ring
  · rw [if_neg (by omega), if_neg hlt]
    rw [rtrunc_div100 y (by omega), rtrunc_div4 (y / 100) (by omega)]
    simp only [gregCorrInt]
    push_cast
    ring

lemma jd_m6 (y : Int) (hy : 1 ≤ y) (hne : y ≠ 1582) (d : Int) :
    date_to_jd y 6 d =
      (((if y < 1582 then 0 else gregCorrInt y) +
        (365 * y + y / 4) + 214 + d : Int) : ℚ) + 1720994.5 := by
  simp only [date_to_jd]
  rw [show (if (6 : Int) = 1 ∨ (6 : Int) = 2 then y - 1 else y) = y
    from by norm_num]
  rw [show (if (6 : Int) = 1 ∨ (6 : Int) = 2 then (6 : Int) + 12 else 6) = 6
    from by norm_num]
  rw [if_neg (by omega : ¬ (y : Int) < 0)]
  rw [rtrunc_36525 y (by omega)]
  rw [rtrunc_eval ((30.6001 : ℚ) * (((6 : Int) : ℚ) + 1)) 214 (by norm_num)
    (by norm_num) (by norm_num)]
  by_cases hlt : y < 1582
  · rw [if_pos (by omega), if_pos hlt]
    push_cast
    ring
  · rw [if_neg (by omega), if_neg hlt]
    rw [rtrunc_div100 y (by omega), rtrunc_div4 (y / 100) (by omega)]
    simp only [gregCorrInt]
    push_cast
    ring

lemma jd_m7 (y : Int) (hy : 1 ≤ y) (hne : y ≠ 1582) (d : Int) :
    date_to_jd y 7 d =
      (((if y < 1582 then 0 else gregCorrInt y) +
        (365 * y + y / 4) + 244 + d : Int) : ℚ) + 1720994.5 := by
  simp only [date_to_jd]
  rw [show (if (7 : Int) = 1 ∨ (7 : Int) = 2 then y - 1 else y) = y
    from by norm_num]
  rw [show (if (7 : Int) = 1 ∨ (7 : Int) = 2 then (7 : Int) + 12 else 7) = 7
    from by norm_num]
  rw [if_neg (by omega : ¬ (y : Int) < 0)]
  rw [rtrunc_36525 y (by omega)]
  rw [rtrunc_eval ((30.6001 : ℚ) * (((7 : Int) : ℚ) + 1)) 244 (by norm_num)
    (by norm_num) (by norm_num)]
  by_cases hlt : y < 1582
  · rw [if_pos (by omega), if_pos hlt]
    push_cast
    ring
  · rw [if_neg (by omega), if_neg hlt]
    rw [rtrunc_div100 y (by omega), rtrunc_div4 (y / 100) (by omega)]
    simp only [gregCorrInt]
    push_cast
    ring

lemma jd_m8 (y : Int) (hy : 1 ≤ y) (hne : y ≠ 1582) (d : Int) :
    date_to_jd y 8 d =
      (((if y < 1582 then 0 else gregCorrInt y) +
        (365 * y + y / 4) + 275 + d : Int) : ℚ) + 1720994.5 := by
  simp only [date_to_jd]
  rw [show (if (8 : Int) = 1 ∨ (8 : Int) = 2 then y - 1 else y) = y
    from by norm_num]
  rw [show (if (8 : Int) = 1 ∨ (8 : Int) = 2 then (8 : Int) + 12 else 8) = 8
    from by norm_num]
  rw [if_neg (by omega : ¬ (y : Int) < 0)]
  rw [rtrunc_36525 y (by omega)]
  rw [rtrunc_eval ((30.6001 : ℚ) * (((8 : Int) : ℚ) + 1)) 275 (by norm_num)
    (by norm_num) (by norm_num)]
  by_cases hlt : y < 1582
  · rw [if_pos (by omega), if_pos hlt]
    push_cast
    ring
  · rw [if_neg (by omega), if_neg hlt]
    rw [rtrunc_div100 y (by omega), rtrunc_div4 (y / 100) (by omega)]
    simp only [gregCorrInt]
    push_cast
    ring

lemma jd_m9 (y : Int) (hy : 1 ≤ y) (hne : y ≠ 1582) (d : Int) :
    date_to_jd y 9 d =
      (((if y < 1582 then 0 else gregCorrInt y) +
        (365 * y + y / 4) + 306 + d : Int) : ℚ) + 1720994.5 := by
  simp only [date_to_jd]
  rw [show (if (9 : Int) = 1 ∨ (9 : Int) = 2 then y - 1 else y) = y
    from by norm_num]
  rw [show (if (9 : Int) = 1 ∨ (9 : Int) = 2 then (9 : Int) + 12 else 9) = 9
    from by norm_num]
  rw [if_neg (by omega : ¬ (y : Int) < 0)]
  rw [rtrunc_36525 y (by omega)]
  rw [rtrunc_eval ((30.6001 : ℚ) * (((9 : Int) : ℚ) + 1)) 306 (by norm_num)
    (by norm_num) (by norm_num)]
  by_cases hlt : y < 1582
  · rw [if_pos (by omega), if_pos hlt]
    push_cast
    ring
  · rw [if_neg (by omega), if_neg hlt]
    rw [rtrunc_div100 y (by omega), rtrunc_div4 (y / 100) (by omega)]
    simp only [gregCorrInt]
    push_cast
    ring

lemma jd_m10 (y : Int) (hy : 1 ≤ y) (hne : y ≠ 1582) (d : Int) :
    date_to_jd y 10 d =
      (((if y < 1582 then 0 else gregCorrInt y) +
        (365 * y + y / 4) + 336 + d : Int) : ℚ) + 1720994.5 := by
  simp only [date_to_jd]
  rw [show (if (10 : Int) = 1 ∨ (10 : Int) = 2 then y - 1 else y) = y
    from by norm_num]
  rw [show (if (10 : Int) = 1 ∨ (10 : Int) = 2 then (10 : Int) + 12 else 10) = 10
    from by norm_num]
  rw [if_neg (by omega : ¬ (y : Int) < 0)]
  rw [rtrunc_36525 y (by omega)]
  rw [rtrunc_eval ((30.6001 : ℚ) * (((10 : Int) : ℚ) + 1)) 336 (by norm_num)
    (by norm_num) (by norm_num)]
  by_cases hlt : y < 1582
  · rw [if_pos (by omega), if_pos hlt]
    push_cast
    ring
  · rw [if_neg (by omega), if_neg hlt]
    rw [rtrunc_div100 y (by omega), rtrunc_div4 (y / 100) (by omega)]
    simp only [gregCorrInt]
    push_cast
    ring

lemma jd_m11 (y : Int) (hy : 1 ≤ y) (hne : y ≠ 1582) (d : Int) :
    date_to_jd y 11 d =
      (((if y < 1582 then 0 else gregCorrInt y) +
        (365 * y + y / 4) + 367 + d : Int) : ℚ) + 1720994.5 := by
  simp only [date_to_jd]
  rw [show (if (11 : Int) = 1 ∨ (11 : Int) = 2 then y - 1 else y) = y
    from by norm_num]
  rw [show (if (11 : Int) = 1 ∨ (11 : Int) = 2 then (11 : Int) + 12 else 11) = 11
    from by norm_num]
  rw [if_neg (by omega : ¬ (y : Int) < 0)]
  rw [rtrunc_36525 y (by omega)]
  rw [rtrunc_eval ((30.6001 : ℚ) * (((11 : Int) : ℚ) + 1)) 367 (by norm_num)
    (by norm_num) (by norm_num)]
  by_cases hlt : y < 1582
  · rw [if_pos (by omega), if_pos hlt]
    push_cast
    ring
  · rw [if_neg (by omega), if_neg hlt]
    rw [rtrunc_div100 y (by omega), rtrunc_div4 (y / 100) (by omega)]
    simp only [gregCorrInt]
    push_cast
    ring

lemma jd_m12 (y : Int) (hy : 1 ≤ y) (hne : y ≠ 1582) (d : Int) :
    date_to_jd y 12 d =
      (((if y < 1582 then 0 else gregCorrInt y) +
        (365 * y + y / 4) + 397 + d : Int) : ℚ) + 1720994.5 := by
  simp only [date_to_jd]
  rw [show (if (12 : Int) = 1 ∨ (12 : Int) = 2 then y - 1 else y) = y
    from by norm_num]
  rw [show (if (12 : Int) = 1 ∨ (12 : Int) = 2 then (12 : Int) + 12 else 12) = 12
    from by norm_num]
  rw [if_neg (by omega : ¬ (y : Int) < 0)]
  rw [rtrunc_36525 y (by omega)]
  rw [rtrunc_eval ((30.6001 : ℚ) * (((12 : Int) : ℚ) + 1)) 397 (by norm_num)
    (by norm_num) (by norm_num)]
  by_cases hlt : y < 1582
  · rw [if_pos (by omega), if_pos hlt]
    push_cast
    ring
  · rw [if_neg (by omega), if_neg hlt]
    rw [rtrunc_div100 y (by omega), rtrunc_div4 (y / 100) (by omega)]
    simp only [gregCorrInt]
    push_cast
    ring

/-- The truncated `30.6001 * (monthp + 1)` term by month (1..12). -/
def dTable (m : Int) : Int :=
  if m = 1 then 428 else if m = 2 then 459 else if m = 3 then 122
  else if m = 4 then 153 else if m = 5 then 183 else if m = 6 then 214
  else if m = 7 then 244 else if m = 8 then 275 else if m = 9 then 306
  else if m = 10 then 336 else if m = 11 then 367 else 397

/-- Month and day-of-month of day `d` (1-based) of year `y`. -/
def monthDay (y d : Int) : Int × Int := pickMonth (monthLengths y) 1 d

/-- Integer part of the Julian Day (minus the 1720994.5 offset) of day `d`
of year `y`, for years ≥ 1 other than 1582. -/
def jdOfDoyInt (y d : Int) : Int :=
  let m := (monthDay y d).1
  let yp := if m = 1 ∨ m = 2 then y - 1 else y
  (if y < 1582 then 0 else gregCorrInt yp) + (365 * yp + yp / 4) +
    dTable m + (monthDay y d).2

lemma monthDay_nonleap (y d : Int) (hF : isLeapYear y = false) (hd : d ≤ 365) :
    monthDay y d = (if d ≤ 31 then (1, d) else if d ≤ 59 then (2, d - 31) else if d ≤ 90 then (3, d - 59) else if d ≤ 120 then (4, d - 90) else if d ≤ 151 then (5, d - 120) else if d ≤ 181 then (6, d - 151) else if d ≤ 212 then (7, d - 181) else if d ≤ 243 then (8, d - 212) else if d ≤ 273 then (9, d - 243) else if d ≤ 304 then (10, d - 273) else if d ≤ 334 then (11, d - 304) else (12, d - 334)) := by
  unfold monthDay
  rw [show monthLengths y = [31, 28, 31, 30, 31, 30, 31, 31, 30, 31, 30, 31]
    from by simp [monthLengths, hF]]
  simp only [pickMonth]
  by_cases h1 : d ≤ 31
  · rw [if_pos h1, if_pos h1]
    all_goals rw [Prod.mk.injEq]
    all_goals constructor <;> omega
  rw [if_neg (show ¬ (d ≤ 31) from by omega), if_neg h1]
  by_cases h2 : d ≤ 59
  · rw [if_pos (show d - 31 ≤ 28 from by omega), if_pos h2]
    all_goals rw [Prod.mk.injEq]
    all_goals constructor <;> omega
  rw [if_neg (show ¬ (d - 31 ≤ 28) from by omega), if_neg h2]
  by_cases h3 : d ≤ 90
  · rw [if_pos (show d - 31 - 28 ≤ 31 from by omega), if_pos h3]
    all_goals rw [Prod.mk.injEq]
    all_goals constructor <;> omega
  rw [if_neg (show ¬ (d - 31 - 28 ≤ 31) from by omega), if_neg h3]
  by_cases h4 : d ≤ 120
  · rw [if_pos (show d - 31 - 28 - 31 ≤ 30 from by omega), if_pos h4]
    all_goals rw [Prod.mk.injEq]
    all_goals constructor <;> omega
  rw [if_neg (show ¬ (d - 31 - 28 - 31 ≤ 30) from by omega), if_neg h4]
  by_cases h5 : d ≤ 151
  · rw [if_pos (show d - 31 - 28 - 31 - 30 ≤ 31 from by omega), if_pos h5]
    all_goals rw [Prod.mk.injEq]
    all_goals constructor <;> omega
  rw [if_neg (show ¬ (d - 31 - 28 - 31 - 30 ≤ 31) from by omega), if_neg h5]
  by_cases h6 : d ≤ 181
  · rw [if_pos (show d - 31 - 28 - 31 - 30 - 31 ≤ 30 from by omega), if_pos h6]
    all_goals rw [Prod.mk.injEq]
    all_goals constructor <;> omega
  rw [if_neg (show ¬ (d - 31 - 28 - 31 - 30 - 31 ≤ 30) from by omega), if_neg h6]
  by_cases h7 : d ≤ 212
  · rw [if_pos (show d - 31 - 28 - 31 - 30 - 31 - 30 ≤ 31 from by omega), if_pos h7]
    all_goals rw [Prod.mk.injEq]
    all_goals constructor <;> omega
  rw [if_neg (show ¬ (d - 31 - 28 - 31 - 30 - 31 - 30 ≤ 31) from by omega), if_neg h7]
  by_cases h8 : d ≤ 243
  · rw [if_pos (show d - 31 - 28 - 31 - 30 - 31 - 30 - 31 ≤ 31 from by omega), if_pos h8]
    all_goals rw [Prod.mk.injEq]
    all_goals constructor <;> omega
  rw [if_neg (show ¬ (d - 31 - 28 - 31 - 30 - 31 - 30 - 31 ≤ 31) from by omega), if_neg h8]
  by_cases h9 : d ≤ 273
  · rw [if_pos (show d - 31 - 28 - 31 - 30 - 31 - 30 - 31 - 31 ≤ 30 from by omega), if_pos h9]
    all_goals rw [Prod.mk.injEq]
    all_goals constructor <;> omega
  rw [if_neg (show ¬ (d - 31 - 28 - 31 - 30 - 31 - 30 - 31 - 31 ≤ 30) from by omega), if_neg h9]
  by_cases h10 : d ≤ 304
  · rw [if_pos (show d - 31 - 28 - 31 - 30 - 31 - 30 - 31 - 31 - 30 ≤ 31 from by omega), if_pos h10]
    all_goals rw [Prod.mk.injEq]
    all_goals constructor <;> omega
  rw [if_neg (show ¬ (d - 31 - 28 - 31 - 30 - 31 - 30 - 31 - 31 - 30 ≤ 31) from by omega), if_neg h10]
  by_cases h11 : d ≤ 334
  · rw [if_pos (show d - 31 - 28 - 31 - 30 - 31 - 30 - 31 - 31 - 30 - 31 ≤ 30 from by omega), if_pos h11]
    all_goals rw [Prod.mk.injEq]
    all_goals constructor <;> omega
  rw [if_neg (show ¬ (d - 31 - 28 - 31 - 30 - 31 - 30 - 31 - 31 - 30 - 31 ≤ 30) from by omega), if_neg h11]
  rw [if_pos (show d - 31 - 28 - 31 - 30 - 31 - 30 - 31 - 31 - 30 - 31 - 30 ≤ 31 from by omega)]
  all_goals rw [Prod.mk.injEq]
  all_goals constructor <;> omega

lemma monthDay_leap (y d : Int) (hF : isLeapYear y = true) (hd : d ≤ 366) :
    monthDay y d = (if d ≤ 31 then (1, d) else if d ≤ 60 then (2, d - 31) else if d ≤ 91 then (3, d - 60) else if d ≤ 121 then (4, d - 91) else if d ≤ 152 then (5, d - 121) else if d ≤ 182 then (6, d - 152) else if d ≤ 213 then (7, d - 182) else if d ≤ 244 then (8, d - 213) else if d ≤ 274 then (9, d - 244) else if d ≤ 305 then (10, d - 274) else if d ≤ 335 then (11, d - 305) else (12, d - 335)) := by
  unfold monthDay
  rw [show monthLengths y = [31, 29, 31, 30, 31, 30, 31, 31, 30, 31, 30, 31]
    from by simp [monthLengths, hF]]
  simp only [pickMonth]
  by_cases h1 : d ≤ 31
  · rw [if_pos h1, if_pos h1]
    all_goals rw [Prod.mk.injEq]
    all_goals constructor <;> omega
  rw [if_neg (show ¬ (d ≤ 31) from by omega), if_neg h1]
  by_cases h2 : d ≤ 60
  · rw [if_pos (show d - 31 ≤ 29 from by omega), if_pos h2]
    all_goals rw [Prod.mk.injEq]
    all_goals constructor <;> omega
  rw [if_neg (show ¬ (d - 31 ≤ 29) from by omega), if_neg h2]
  by_cases h3 : d ≤ 91
  · rw [if_pos (show d - 31 - 29 ≤ 31 from by omega), if_pos h3]
    all_goals rw [Prod.mk.injEq]
    all_goals constructor <;> omega
  rw [if_neg (show ¬ (d - 31 - 29 ≤ 31) from by omega), if_neg h3]
  by_cases h4 : d ≤ 121
  · rw [if_pos (show d - 31 - 29 - 31 ≤ 30 from by omega), if_pos h4]
    all_goals rw [Prod.mk.injEq]
    all_goals constructor <;> omega
  rw [if_neg (show ¬ (d - 31 - 29 - 31 ≤ 30) from by omega), if_neg h4]
  by_cases h5 : d ≤ 152
  · rw [if_pos (show d - 31 - 29 - 31 - 30 ≤ 31 from by omega), if_pos h5]
    all_goals rw [Prod.mk.injEq]
    all_goals constructor <;> omega
  rw [if_neg (show ¬ (d - 31 - 29 - 31 - 30 ≤ 31) from by omega), if_neg h5]
  by_cases h6 : d ≤ 182
  · rw [if_pos (show d - 31 - 29 - 31 - 30 - 31 ≤ 30 from by omega), if_pos h6]
    all_goals rw [Prod.mk.injEq]
    all_goals constructor <;> omega
  rw [if_neg (show ¬ (d - 31 - 29 - 31 - 30 - 31 ≤ 30) from by omega), if_neg h6]
  by_cases h7 : d ≤ 213
  · rw [if_pos (show d - 31 - 29 - 31 - 30 - 31 - 30 ≤ 31 from by omega), if_pos h7]
    all_goals rw [Prod.mk.injEq]
    all_goals constructor <;> omega
  rw [if_neg (show ¬ (d - 31 - 29 - 31 - 30 - 31 - 30 ≤ 31) from by omega), if_neg h7]
  by_cases h8 : d ≤ 244
  · rw [if_pos (show d - 31 - 29 - 31 - 30 - 31 - 30 - 31 ≤ 31 from by omega), if_pos h8]
    all_goals rw [Prod.mk.injEq]
    all_goals constructor <;> omega
  rw [if_neg (show ¬ (d - 31 - 29 - 31 - 30 - 31 - 30 - 31 ≤ 31) from by omega), if_neg h8]
  by_cases h9 : d ≤ 274
  · rw [if_pos (show d - 31 - 29 - 31 - 30 - 31 - 30 - 31 - 31 ≤ 30 from by omega), if_pos h9]
    all_goals rw [Prod.mk.injEq]
    all_goals constructor <;> omega
  rw [if_neg (show ¬ (d - 31 - 29 - 31 - 30 - 31 - 30 - 31 - 31 ≤ 30) from by omega), if_neg h9]
  by_cases h10 : d ≤ 305
  · rw [if_pos (show d - 31 - 29 - 31 - 30 - 31 - 30 - 31 - 31 - 30 ≤ 31 from by omega), if_pos h10]
    all_goals rw [Prod.mk.injEq]
    all_goals constructor <;> omega
  rw [if_neg (show ¬ (d - 31 - 29 - 31 - 30 - 31 - 30 - 31 - 31 - 30 ≤ 31) from by omega), if_neg h10]
  by_cases h11 : d ≤ 335
  · rw [if_pos (show d - 31 - 29 - 31 - 30 - 31 - 30 - 31 - 31 - 30 - 31 ≤ 30 from by omega), if_pos h11]
    all_goals rw [Prod.mk.injEq]
    all_goals constructor <;> omega
  rw [if_neg (show ¬ (d - 31 - 29 - 31 - 30 - 31 - 30 - 31 - 31 - 30 - 31 ≤ 30) from by omega), if_neg h11]
  rw [if_pos (show d - 31 - 29 - 31 - 30 - 31 - 30 - 31 - 31 - 30 - 31 - 30 ≤ 31 from by omega)]
  all_goals rw [Prod.mk.injEq]
  all_goals constructor <;> omega

set_option maxHeartbeats 1000000 in
lemma monthDay_cases_nonleap (y d : Int) (hF : isLeapYear y = false)
    (h1 : 1 ≤ d) (h2 : d ≤ 365) :
    (monthDay y d = (1, d) ∧ 1 ≤ d ∧ d ≤ 31) ∨
      (monthDay y d = (2, d - 31) ∧ 32 ≤ d ∧ d ≤ 59) ∨
      (monthDay y d = (3, d - 59) ∧ 60 ≤ d ∧ d ≤ 90) ∨
      (monthDay y d = (4, d - 90) ∧ 91 ≤ d ∧ d ≤ 120) ∨
      (monthDay y d = (5, d - 120) ∧ 121 ≤ d ∧ d ≤ 151) ∨
      (monthDay y d = (6, d - 151) ∧ 152 ≤ d ∧ d ≤ 181) ∨
      (monthDay y d = (7, d - 181) ∧ 182 ≤ d ∧ d ≤ 212) ∨
      (monthDay y d = (8, d - 212) ∧ 213 ≤ d ∧ d ≤ 243) ∨
      (monthDay y d = (9, d - 243) ∧ 244 ≤ d ∧ d ≤ 273) ∨
      (monthDay y d = (10, d - 273) ∧ 274 ≤ d ∧ d ≤ 304) ∨
      (monthDay y d = (11, d - 304) ∧ 305 ≤ d ∧ d ≤ 334) ∨
      (monthDay y d = (12, d - 334) ∧ 335 ≤ d ∧ d ≤ 365) := by
  rw [monthDay_nonleap y d hF h2]
  split_ifs <;>
    first
      | exact Or.inl ⟨rfl, by omega, by omega⟩
      | exact Or.inr (Or.inl ⟨rfl, by omega, by omega⟩)
      | exact Or.inr (Or.inr (Or.inl ⟨rfl, by omega, by omega⟩))
      | exact Or.inr (Or.inr (Or.inr (Or.inl ⟨rfl, by omega, by omega⟩)))
      | exact Or.inr (Or.inr (Or.inr (Or.inr (Or.inl ⟨rfl, by omega, by omega⟩))))
      | exact Or.inr (Or.inr (Or.inr (Or.inr (Or.inr (Or.inl ⟨rfl, by omega, by omega⟩)))))
      | exact Or.inr (Or.inr (Or.inr (Or.inr (Or.inr (Or.inr (Or.inl ⟨rfl, by omega, by omega⟩))))))
      | exact Or.inr (Or.inr (Or.inr (Or.inr (Or.inr (Or.inr (Or.inr (Or.inl ⟨rfl, by omega, by omega⟩)))))))
      | exact Or.inr (Or.inr (Or.inr (Or.inr (Or.inr (Or.inr (Or.inr (Or.inr (Or.inl ⟨rfl, by omega, by omega⟩))))))))
      | exact Or.inr (Or.inr (Or.inr (Or.inr (Or.inr (Or.inr (Or.inr (Or.inr (Or.inr (Or.inl ⟨rfl, by omega, by omega⟩)))))))))
      | exact Or.inr (Or.inr (Or.inr (Or.inr (Or.inr (Or.inr (Or.inr (Or.inr (Or.inr (Or.inr (Or.inl ⟨rfl, by omega, by omega⟩))))))))))
      | exact Or.inr (Or.inr (Or.inr (Or.inr (Or.inr (Or.inr (Or.inr (Or.inr (Or.inr (Or.inr (Or.inr (⟨rfl, by omega, by omega⟩)))))))))))

set_option maxHeartbeats 1000000 in
lemma monthDay_cases_leap (y d : Int) (hF : isLeapYear y = true)
    (h1 : 1 ≤ d) (h2 : d ≤ 366) :
    (monthDay y d = (1, d) ∧ 1 ≤ d ∧ d ≤ 31) ∨
      (monthDay y d = (2, d - 31) ∧ 32 ≤ d ∧ d ≤ 60) ∨
      (monthDay y d = (3, d - 60) ∧ 61 ≤ d ∧ d ≤ 91) ∨
      (monthDay y d = (4, d - 91) ∧ 92 ≤ d ∧ d ≤ 121) ∨
      (monthDay y d = (5, d - 121) ∧ 122 ≤ d ∧ d ≤ 152) ∨
      (monthDay y d = (6, d - 152) ∧ 153 ≤ d ∧ d ≤ 182) ∨
      (monthDay y d = (7, d - 182) ∧ 183 ≤ d ∧ d ≤ 213) ∨
      (monthDay y d = (8, d - 213) ∧ 214 ≤ d ∧ d ≤ 244) ∨
      (monthDay y d = (9, d - 244) ∧ 245 ≤ d ∧ d ≤ 274) ∨
      (monthDay y d = (10, d - 274) ∧ 275 ≤ d ∧ d ≤ 305) ∨
      (monthDay y d = (11, d - 305) ∧ 306 ≤ d ∧ d ≤ 335) ∨
      (monthDay y d = (12, d - 335) ∧ 336 ≤ d ∧ d ≤ 366) := by
  rw [monthDay_leap y d hF h2]
  split_ifs <;>
    first
      | exact Or.inl ⟨rfl, by omega, by omega⟩
      | exact Or.inr (Or.inl ⟨rfl, by omega, by omega⟩)
      | exact Or.inr (Or.inr (Or.inl ⟨rfl, by omega, by omega⟩))
      | exact Or.inr (Or.inr (Or.inr (Or.inl ⟨rfl, by omega, by omega⟩)))
      | exact Or.inr (Or.inr (Or.inr (Or.inr (Or.inl ⟨rfl, by omega, by omega⟩))))
      | exact Or.inr (Or.inr (Or.inr (Or.inr (Or.inr (Or.inl ⟨rfl, by omega, by omega⟩)))))
      | exact Or.inr (Or.inr (Or.inr (Or.inr (Or.inr (Or.inr (Or.inl ⟨rfl, by omega, by omega⟩))))))
      | exact Or.inr (Or.inr (Or.inr (Or.inr (Or.inr (Or.inr (Or.inr (Or.inl ⟨rfl, by omega, by omega⟩)))))))
      | exact Or.inr (Or.inr (Or.inr (Or.inr (Or.inr (Or.inr (Or.inr (Or.inr (Or.inl ⟨rfl, by omega, by omega⟩))))))))
      | exact Or.inr (Or.inr (Or.inr (Or.inr (Or.inr (Or.inr (Or.inr (Or.inr (Or.inr (Or.inl ⟨rfl, by omega, by omega⟩)))))))))
      | exact Or.inr (Or.inr (Or.inr (Or.inr (Or.inr (Or.inr (Or.inr (Or.inr (Or.inr (Or.inr (Or.inl ⟨rfl, by omega, by omega⟩))))))))))
      | exact Or.inr (Or.inr (Or.inr (Or.inr (Or.inr (Or.inr (Or.inr (Or.inr (Or.inr (Or.inr (Or.inr (⟨rfl, by omega, by omega⟩)))))))))))

lemma jdOfDoyInt_nonleap (y d : Int) (hF : isLeapYear y = false)
    (h1 : 1 ≤ d) (h2 : d ≤ 365) :
    jdOfDoyInt y d =
      if d ≤ 59 then
        (if y < 1582 then 0 else gregCorrInt (y - 1)) +
          (365 * (y - 1) + (y - 1) / 4) + 428 + d
      else
        (if y < 1582 then 0 else gregCorrInt y) + (365 * y + y / 4) + 63 + d := by
  rcases monthDay_cases_nonleap y d hF h1 h2 with
    ⟨hmd, hl, hr⟩ | ⟨hmd, hl, hr⟩ | ⟨hmd, hl, hr⟩ | ⟨hmd, hl, hr⟩ | ⟨hmd, hl, hr⟩ |
    ⟨hmd, hl, hr⟩ | ⟨hmd, hl, hr⟩ | ⟨hmd, hl, hr⟩ | ⟨hmd, hl, hr⟩ | ⟨hmd, hl, hr⟩ |
    ⟨hmd, hl, hr⟩ | ⟨hmd, hl, hr⟩
  · simp only [jdOfDoyInt]
    rw [hmd]
    dsimp only
    rw [if_pos (show d ≤ 59 from by omega)]
    norm_num [dTable, gregCorrInt]
    all_goals split_ifs <;> omega
  · simp only [jdOfDoyInt]
    rw [hmd]
    dsimp only
    rw [if_pos (show d ≤ 59 from by omega)]
    norm_num [dTable, gregCorrInt]
    all_goals split_ifs <;> omega
  · simp only [jdOfDoyInt]
    rw [hmd]
    dsimp only
    rw [if_neg (show ¬ d ≤ 59 from by omega)]
    norm_num [dTable, gregCorrInt]
    all_goals split_ifs <;> omega
  · simp only [jdOfDoyInt]
    rw [hmd]
    dsimp only
    rw [if_neg (show ¬ d ≤ 59 from by omega)]
    norm_num [dTable, gregCorrInt]
    all_goals split_ifs <;> omega
  · simp only [jdOfDoyInt]
    rw [hmd]
    dsimp only
    rw [if_neg (show ¬ d ≤ 59 from by omega)]
    norm_num [dTable, gregCorrInt]
    all_goals split_ifs <;> omega
  · simp only [jdOfDoyInt]
    rw [hmd]
    dsimp only
    rw [if_neg (show ¬ d ≤ 59 from by omega)]
    norm_num [dTable, gregCorrInt]
    all_goals split_ifs <;> omega
  · simp only [jdOfDoyInt]
    rw [hmd]
    dsimp only
    rw [if_neg (show ¬ d ≤ 59 from by omega)]
    norm_num [dTable, gregCorrInt]
    all_goals split_ifs <;> omega
  · simp only [jdOfDoyInt]
    rw [hmd]
    dsimp only
    rw [if_neg (show ¬ d ≤ 59 from by omega)]
    norm_num [dTable, gregCorrInt]
    all_goals split_ifs <;> omega
  · simp only [jdOfDoyInt]
    rw [hmd]
    dsimp only
    rw [if_neg (show ¬ d ≤ 59 from by omega)]
    norm_num [dTable, gregCorrInt]
    all_goals split_ifs <;> omega
  · simp only [jdOfDoyInt]
    rw [hmd]
    dsimp only
    rw [if_neg (show ¬ d ≤ 59 from by omega)]
    norm_num [dTable, gregCorrInt]
    all_goals split_ifs <;> omega
  · simp only [jdOfDoyInt]
    rw [hmd]
    dsimp only
    rw [if_neg (show ¬ d ≤ 59 from by omega)]
    norm_num [dTable, gregCorrInt]
    all_goals split_ifs <;> omega
  · simp only [jdOfDoyInt]
    rw [hmd]
    dsimp only
    rw [if_neg (show ¬ d ≤ 59 from by omega)]
    norm_num [dTable, gregCorrInt]
    all_goals split_ifs <;> omega

lemma jdOfDoyInt_leap (y d : Int) (hF : isLeapYear y = true)
    (h1 : 1 ≤ d) (h2 : d ≤ 366) :
    jdOfDoyInt y d =
      if d ≤ 60 then
        (if y < 1582 then 0 else gregCorrInt (y - 1)) +
          (365 * (y - 1) + (y - 1) / 4) + 428 + d
      else
        (if y < 1582 then 0 else gregCorrInt y) + (365 * y + y / 4) + 62 + d := by
  rcases monthDay_cases_leap y d hF h1 h2 with
    ⟨hmd, hl, hr⟩ | ⟨hmd, hl, hr⟩ | ⟨hmd, hl, hr⟩ | ⟨hmd, hl, hr⟩ | ⟨hmd, hl, hr⟩ |
    ⟨hmd, hl, hr⟩ | ⟨hmd, hl, hr⟩ | ⟨hmd, hl, hr⟩ | ⟨hmd, hl, hr⟩ | ⟨hmd, hl, hr⟩ |
    ⟨hmd, hl, hr⟩ | ⟨hmd, hl, hr⟩
  · simp only [jdOfDoyInt]
    rw [hmd]
    dsimp only
    rw [if_pos (show d ≤ 60 from by omega)]
    norm_num [dTable, gregCorrInt]
    all_goals split_ifs <;> omega
  · simp only [jdOfDoyInt]
    rw [hmd]
    dsimp only
    rw [if_pos (show d ≤ 60 from by omega)]
    norm_num [dTable, gregCorrInt]
    all_goals split_ifs <;> omega
  · simp only [jdOfDoyInt]
    rw [hmd]
    dsimp only
    rw [if_neg (show ¬ d ≤ 60 from by omega)]
    norm_num [dTable, gregCorrInt]
    all_goals split_ifs <;> omega
  · simp only [jdOfDoyInt]
    rw [hmd]
    dsimp only
    rw [if_neg (show ¬ d ≤ 60 from by omega)]
    norm_num [dTable, gregCorrInt]
    all_goals split_ifs <;> omega
  · simp only [jdOfDoyInt]
    rw [hmd]
    dsimp only
    rw [if_neg (show ¬ d ≤ 60 from by omega)]
    norm_num [dTable, gregCorrInt]
    all_goals split_ifs <;> omega
  · simp only [jdOfDoyInt]
    rw [hmd]
    dsimp only
    rw [if_neg (show ¬ d ≤ 60 from by omega)]
    norm_num [dTable, gregCorrInt]
    all_goals split_ifs <;> omega
  · simp only [jdOfDoyInt]
    rw [hmd]
    dsimp only
    rw [if_neg (show ¬ d ≤ 60 from by omega)]
    norm_num [dTable, gregCorrInt]
    all_goals split_ifs <;> omega
  · simp only [jdOfDoyInt]
    rw [hmd]
    dsimp only
    rw [if_neg (show ¬ d ≤ 60 from by omega)]
    norm_num [dTable, gregCorrInt]
    all_goals split_ifs <;> omega
  · simp only [jdOfDoyInt]
    rw [hmd]
    dsimp only
    rw [if_neg (show ¬ d ≤ 60 from by omega)]
    norm_num [dTable, gregCorrInt]
    all_goals split_ifs <;> omega
  · simp only [jdOfDoyInt]
    rw [hmd]
    dsimp only
    rw [if_neg (show ¬ d ≤ 60 from by omega)]
    norm_num [dTable, gregCorrInt]
    all_goals split_ifs <;> omega
  · simp only [jdOfDoyInt]
    rw [hmd]
    dsimp only
    rw [if_neg (show ¬ d ≤ 60 from by omega)]
    norm_num [dTable, gregCorrInt]
    all_goals split_ifs <;> omega
  · simp only [jdOfDoyInt]
    rw [hmd]
    dsimp only
    rw [if_neg (show ¬ d ≤ 60 from by omega)]
    norm_num [dTable, gregCorrInt]
    all_goals split_ifs <;> omega

lemma date_to_jd_monthDay (y d : Int) (hy : 1 ≤ y) (hne : y ≠ 1582)
    (hd1 : 1 ≤ d) (hd2 : d ≤ daysInYear y) :
    date_to_jd y (monthDay y d).1 (monthDay y d).2 =
      ((jdOfDoyInt y d : Int) : ℚ) + 1720994.5 := by
  rcases Bool.eq_false_or_eq_true (isLeapYear y) with hF | hF
  · have hdm : d ≤ 366 := by simp [daysInYear, hF] at hd2; exact hd2
    rcases monthDay_cases_leap y d hF hd1 hdm with
      ⟨hmd, hl, hr⟩ | ⟨hmd, hl, hr⟩ | ⟨hmd, hl, hr⟩ | ⟨hmd, hl, hr⟩ | ⟨hmd, hl, hr⟩ |
      ⟨hmd, hl, hr⟩ | ⟨hmd, hl, hr⟩ | ⟨hmd, hl, hr⟩ | ⟨hmd, hl, hr⟩ | ⟨hmd, hl, hr⟩ |
      ⟨hmd, hl, hr⟩ | ⟨hmd, hl, hr⟩
    · rw [hmd]
      dsimp only
      rw [jd_m1 y hy hne]
      rw [jdOfDoyInt_leap y d hF hd1 hdm]
      rw [if_pos (show d ≤ 60 from by omega)]
      all_goals split_ifs <;> push_cast <;> ring
    · rw [hmd]
      dsimp only
      rw [jd_m2 y hy hne]
      rw [jdOfDoyInt_leap y d hF hd1 hdm]
      rw [if_pos (show d ≤ 60 from by omega)]
      all_goals split_ifs <;> push_cast <;> ring
    · rw [hmd]
      dsimp only
      rw [jd_m3 y hy hne]
      rw [jdOfDoyInt_leap y d hF hd1 hdm]
      rw [if_neg (show ¬ d ≤ 60 from by omega)]
      all_goals split_ifs <;> push_cast <;> ring
    · rw [hmd]
      dsimp only
      rw [jd_m4 y hy hne]
      rw [jdOfDoyInt_leap y d hF hd1 hdm]
      rw [if_neg (show ¬ d ≤ 60 from by omega)]
      all_goals split_ifs <;> push_cast <;> ring
    · rw [hmd]
      dsimp only
      rw [jd_m5 y hy hne]
      rw [jdOfDoyInt_leap y d hF hd1 hdm]
      rw [if_neg (show ¬ d ≤ 60 from by omega)]
      all_goals split_ifs <;> push_cast <;> ring
    · rw [hmd]
      dsimp only
      rw [jd_m6 y hy hne]
      rw [jdOfDoyInt_leap y d hF hd1 hdm]
      rw [if_neg (show ¬ d ≤ 60 from by omega)]
      all_goals split_ifs <;> push_cast <;> ring
    · rw [hmd]
      dsimp only
      rw [jd_m7 y hy hne]
      rw [jdOfDoyInt_leap y d hF hd1 hdm]
      rw [if_neg (show ¬ d ≤ 60 from by omega)]
      all_goals split_ifs <;> push_cast <;> ring
    · rw [hmd]
      dsimp only
      rw [jd_m8 y hy hne]
      rw [jdOfDoyInt_leap y d hF hd1 hdm]
      rw [if_neg (show ¬ d ≤ 60 from by omega)]
      all_goals split_ifs <;> push_cast <;> ring
    · rw [hmd]
      dsimp only
      rw [jd_m9 y hy hne]
      rw [jdOfDoyInt_leap y d hF hd1 hdm]
      rw [if_neg (show ¬ d ≤ 60 from by omega)]
      all_goals split_ifs <;> push_cast <;> ring
    · rw [hmd]
      dsimp only
      rw [jd_m10 y hy hne]
      rw [jdOfDoyInt_leap y d hF hd1 hdm]
      rw [if_neg (show ¬ d ≤ 60 from by omega)]
      all_goals split_ifs <;> push_cast <;> ring
    · rw [hmd]
      dsimp only
      rw [jd_m11 y hy hne]
      rw [jdOfDoyInt_leap y d hF hd1 hdm]
      rw [if_neg (show ¬ d ≤ 60 from by omega)]
      all_goals split_ifs <;> push_cast <;> ring
    · rw [hmd]
      dsimp only
      rw [jd_m12 y hy hne]
      rw [jdOfDoyInt_leap y d hF hd1 hdm]
      rw [if_neg (show ¬ d ≤ 60 from by omega)]
      all_goals split_ifs <;> push_cast <;> ring
  · have hdm : d ≤ 365 := by simp [daysInYear, hF] at hd2; exact hd2
    rcases monthDay_cases_nonleap y d hF hd1 hdm with
      ⟨hmd, hl, hr⟩ | ⟨hmd, hl, hr⟩ | ⟨hmd, hl, hr⟩ | ⟨hmd, hl, hr⟩ | ⟨hmd, hl, hr⟩ |
      ⟨hmd, hl, hr⟩ | ⟨hmd, hl, hr⟩ | ⟨hmd, hl, hr⟩ | ⟨hmd, hl, hr⟩ | ⟨hmd, hl, hr⟩ |
      ⟨hmd, hl, hr⟩ | ⟨hmd, hl, hr⟩
    · rw [hmd]
      dsimp only
      rw [jd_m1 y hy hne]
      rw [jdOfDoyInt_nonleap y d hF hd1 hdm]
      rw [if_pos (show d ≤ 59 from by omega)]
      all_goals split_ifs <;> push_cast <;> ring
    · rw [hmd]
      dsimp only
      rw [jd_m2 y hy hne]
      rw [jdOfDoyInt_nonleap y d hF hd1 hdm]
      rw [if_pos (show d ≤ 59 from by omega)]
      all_goals split_ifs <;> push_cast <;> ring
    · rw [hmd]
      dsimp only
      rw [jd_m3 y hy hne]
      rw [jdOfDoyInt_nonleap y d hF hd1 hdm]
      rw [if_neg (show ¬ d ≤ 59 from by omega)]
      all_goals split_ifs <;> push_cast <;> ring
    · rw [hmd]
      dsimp only
      rw [jd_m4 y hy hne]
      rw [jdOfDoyInt_nonleap y d hF hd1 hdm]
      rw [if_neg (show ¬ d ≤ 59 from by omega)]
      all_goals split_ifs <;> push_cast <;> ring
    · rw [hmd]
      dsimp only
      rw [jd_m5 y hy hne]
      rw [jdOfDoyInt_nonleap y d hF hd1 hdm]
      rw [if_neg (show ¬ d ≤ 59 from by omega)]
      all_goals split_ifs <;> push_cast <;> ring
    · rw [hmd]
      dsimp only
      rw [jd_m6 y hy hne]
      rw [jdOfDoyInt_nonleap y d hF hd1 hdm]
      rw [if_neg (show ¬ d ≤ 59 from by omega)]
      all_goals split_ifs <;> push_cast <;> ring
    · rw [hmd]
      dsimp only
      rw [jd_m7 y hy hne]
      rw [jdOfDoyInt_nonleap y d hF hd1 hdm]
      rw [if_neg (show ¬ d ≤ 59 from by omega)]
      all_goals split_ifs <;> push_cast <;> ring
    · rw [hmd]
      dsimp only
      rw [jd_m8 y hy hne]
      rw [jdOfDoyInt_nonleap y d hF hd1 hdm]
      rw [if_neg (show ¬ d ≤ 59 from by omega)]
      all_goals split_ifs <;> push_cast <;> ring
    · rw [hmd]
      dsimp only
      rw [jd_m9 y hy hne]
      rw [jdOfDoyInt_nonleap y d hF hd1 hdm]
      rw [if_neg (show ¬ d ≤ 59 from by omega)]
      all_goals split_ifs <;> push_cast <;> ring
    · rw [hmd]
      dsimp only
      rw [jd_m10 y hy hne]
      rw [jdOfDoyInt_nonleap y d hF hd1 hdm]
      rw [if_neg (show ¬ d ≤ 59 from by omega)]
      all_goals split_ifs <;> push_cast <;> ring
    · rw [hmd]
      dsimp only
      rw [jd_m11 y hy hne]
      rw [jdOfDoyInt_nonleap y d hF hd1 hdm]
      rw [if_neg (show ¬ d ≤ 59 from by omega)]
      all_goals split_ifs <;> push_cast <;> ring
    · rw [hmd]
      dsimp only
      rw [jd_m12 y hy hne]
      rw [jdOfDoyInt_nonleap y d hF hd1 hdm]
      rw [if_neg (show ¬ d ≤ 59 from by omega)]
      all_goals split_ifs <;> push_cast <;> ring

lemma jdOfDoyInt_succ (y d : Int) (hy : 1 ≤ y) (hne : y ≠ 1582)
    (hd1 : 1 ≤ d) (hd2 : d + 1 ≤ daysInYear y) :
    jdOfDoyInt y d + 1 ≤ jdOfDoyInt y (d + 1) := by
  rcases Bool.eq_false_or_eq_true (isLeapYear y) with hF | hF
  · have ha := hF
    simp [isLeapYear] at ha
    have hdm : d + 1 ≤ 366 := by simp [daysInYear, hF] at hd2; exact hd2
    rw [jdOfDoyInt_leap y d hF hd1 (by omega),
      jdOfDoyInt_leap y (d + 1) hF (by omega) hdm]
    simp only [gregCorrInt]
    split_ifs <;> omega
  · have ha := hF
    simp [isLeapYear] at ha
    have hdm : d + 1 ≤ 365 := by simp [daysInYear, hF] at hd2; exact hd2
    rw [jdOfDoyInt_nonleap y d hF hd1 (by omega),
      jdOfDoyInt_nonleap y (d + 1) hF (by omega) hdm]
    simp only [gregCorrInt]
    split_ifs <;> omega

lemma jdOfDoyInt_mono (y d1 d2 : Int) (hy : 1 ≤ y) (hne : y ≠ 1582)
    (h1 : 1 ≤ d1) (h12 : d1 < d2) (h2 : d2 ≤ daysInYear y) :
    jdOfDoyInt y d1 + 1 ≤ jdOfDoyInt y d2 := by
  have key : ∀ n : Int, d1 + 1 ≤ n →
      (n ≤ daysInYear y → jdOfDoyInt y d1 + 1 ≤ jdOfDoyInt y n) :=
    Int.le_induction
      (fun h => jdOfDoyInt_succ y d1 hy hne h1 h)
      (fun n hn ihn hle => by
        have hs := jdOfDoyInt_succ y n hy hne (by omega) hle
        have ht := ihn (by omega)
        omega)
  exact key d2 (by omega) h2

lemma fromDoy_in_year (y d : Int) (h1 : 1 ≤ d) (h2 : d ≤ daysInYear y) :
    fromDoy y d = (y, (monthDay y d).1, (monthDay y d).2) := by
  have hdy : 0 < daysInYear y := by unfold daysInYear; split_ifs <;> norm_num
  obtain ⟨n, hn⟩ : ∃ n : Nat, d.toNat = n + 1 := ⟨d.toNat - 1, by omega⟩
  simp only [fromDoy, hn, normDoy]
  rw [if_neg (show ¬ (daysInYear y).toNat < n + 1 from by omega)]
  rw [show ((n + 1 : Nat) : Int) = d from by omega]
  rfl

lemma mjd_in_year (v : VexDate) (hy : 1 ≤ v.yr) (hne : v.yr ≠ 1582)
    (h1 : 1 ≤ v.doy) (h2 : v.doy ≤ daysInYear v.yr) :
    (dateVEX2split v).mjd = ((jdOfDoyInt v.yr v.doy : Int) : ℚ) - 679005.5 +
      ((v.hh : ℚ) - 12 + (v.mm : ℚ) / 60 + (v.ss : ℚ) / 3600) / 24 := by
  simp only [dateVEX2split, fromDoy_in_year v.yr v.doy h1 h2]
  rw [date_to_jd_monthDay v.yr v.doy hy hne h1 h2]
  ring

lemma timefrac_bounds (hh mm ss : Int) (h1 : 0 ≤ hh) (h2 : hh ≤ 23)
    (h3 : 0 ≤ mm) (h4 : mm ≤ 59) (h5 : 0 ≤ ss) (h6 : ss ≤ 59) :
    -(1 / 2 : ℚ) ≤ ((hh : ℚ) - 12 + (mm : ℚ) / 60 + (ss : ℚ) / 3600) / 24 ∧
    ((hh : ℚ) - 12 + (mm : ℚ) / 60 + (ss : ℚ) / 3600) / 24 < 1 / 2 := by
  have c1 : (0 : ℚ) ≤ (hh : ℚ) := by exact_mod_cast h1
  have c2 : (hh : ℚ) ≤ 23 := by exact_mod_cast h2
  have c3 : (0 : ℚ) ≤ (mm : ℚ) := by exact_mod_cast h3
  have c4 : (mm : ℚ) ≤ 59 := by exact_mod_cast h4
  have c5 : (0 : ℚ) ≤ (ss : ℚ) := by exact_mod_cast h5
  have c6 : (ss : ℚ) ≤ 59 := by exact_mod_cast h6
  constructor <;> linarith

/-- C8 amended: strict monotonicity of the MJD holds within every year other
than 1582: for valid timestamps a, b in the same year y with 1 ≤ y and
y ≠ 1582 (day-of-year within the year, hour 0..23, minute and second 0..59),
a earlier than b field-wise implies mjd(a) < mjd(b).  (In year 1582 the
algorithm's Gregorian cutover makes the MJD jump backwards.) -/
theorem mjd_monotone (a b : VexDate)
    (hyy : a.yr = b.yr) (hy1 : 1 ≤ a.yr) (hne : a.yr ≠ 1582)
    (ha1 : 1 ≤ a.doy) (ha2 : a.doy ≤ daysInYear a.yr)
    (hb1 : 1 ≤ b.doy) (hb2 : b.doy ≤ daysInYear b.yr)
    (hah1 : 0 ≤ a.hh) (hah2 : a.hh ≤ 23) (ham1 : 0 ≤ a.mm) (ham2 : a.mm ≤ 59)
    (has1 : 0 ≤ a.ss) (has2 : a.ss ≤ 59)
    (hbh1 : 0 ≤ b.hh) (hbh2 : b.hh ≤ 23) (hbm1 : 0 ≤ b.mm) (hbm2 : b.mm ≤ 59)
    (hbs1 : 0 ≤ b.ss) (hbs2 : b.ss ≤ 59)
    (hlt : a.doy < b.doy ∨ (a.doy = b.doy ∧ (a.hh < b.hh ∨ (a.hh = b.hh ∧
      (a.mm < b.mm ∨ (a.mm = b.mm ∧ a.ss < b.ss)))))) :
    (dateVEX2split a).mjd < (dateVEX2split b).mjd := by
  rw [mjd_in_year a hy1 hne ha1 ha2,
    mjd_in_year b (hyy ▸ hy1) (hyy ▸ hne) hb1 hb2, ← hyy]
  obtain ⟨hfa1, hfa2⟩ :=
    timefrac_bounds a.hh a.mm a.ss hah1 hah2 ham1 ham2 has1 has2
  obtain ⟨hfb1, hfb2⟩ :=
    timefrac_bounds b.hh b.mm b.ss hbh1 hbh2 hbm1 hbm2 hbs1 hbs2
  rcases hlt with hdoy | ⟨hdeq, htime⟩
  · have hmono := jdOfDoyInt_mono a.yr a.doy b.doy hy1 hne ha1 hdoy (hyy ▸ hb2)
    have hcast : ((jdOfDoyInt a.yr a.doy : Int) : ℚ) + 1 ≤
        ((jdOfDoyInt a.yr b.doy : Int) : ℚ) := by exact_mod_cast hmono
    linarith
  · rw [← hdeq]
    have hsod : 3600 * a.hh + 60 * a.mm + a.ss < 3600 * b.hh + 60 * b.mm + b.ss := by
      omega
    have hcast : (3600 * (a.hh : ℚ) + 60 * (a.mm : ℚ) + (a.ss : ℚ)) <
        (3600 * (b.hh : ℚ) + 60 * (b.mm : ℚ) + (b.ss : ℚ)) := by exact_mod_cast hsod
    linarith

/-- C8 amended, witness: 2015-262 11:00:00 earlier than 2015-262 11:05:00. -/
theorem mjd_monotone_witness :
    (dateVEX2split ⟨2015, 262, 11, 0, 0⟩).mjd <
      (dateVEX2split ⟨2015, 262, 11, 5, 0⟩).mjd :=
  mjd_monotone ⟨2015, 262, 11, 0, 0⟩ ⟨2015, 262, 11, 5, 0⟩ rfl (by decide)
    (by decide) (by decide) (by decide) (by decide) (by decide) (by decide)
    (by decide) (by decide) (by decide) (by decide) (by decide) (by decide)
    (by decide) (by decide) (by decide) (by decide) (by decide) (by decide)

/-- C8 counterexample: in year 1582 the claimed monotonicity fails on the
code: 1582-287 (Oct 14) is earlier than 1582-288 (Oct 15), both valid
day-of-year values, yet toMJD drops by 9 days across the algorithm's
Gregorian cutover. -/
theorem mjd_1582_not_monotone :
    (287 : Int) < 288 ∧ (288 : Int) ≤ daysInYear 1582 ∧
    (dateVEX2split ⟨1582, 288, 0, 0, 0⟩).mjd <
      (dateVEX2split ⟨1582, 287, 0, 0, 0⟩).mjd := by
  refine ⟨by norm_num, by decide, ?_⟩
  have hf1 : fromDoy 1582 287 = (1582, 10, 14) := by decide
  have hf2 : fromDoy 1582 288 = (1582, 10, 15) := by decide
  have hA : rtrunc ((791 : ℚ) / 50) = 15 :=
    rtrunc_eval _ 15 (by norm_num) (by norm_num) (by norm_num)
  have hA4 : rtrunc ((15 : ℚ) / 4) = 3 :=
    rtrunc_eval _ 3 (by norm_num) (by norm_num) (by norm_num)
  have hC : rtrunc ((1155651 : ℚ) / 2) = 577825 :=
    rtrunc_eval _ 577825 (by norm_num) (by norm_num) (by norm_num)
  have hD : rtrunc ((3366011 : ℚ) / 10000) = 336 :=
    rtrunc_eval _ 336 (by norm_num) (by norm_num) (by norm_num)
  simp only [dateVEX2split, hf1, hf2, date_to_jd]
  norm_num [hA, hA4, hC, hD]
